import Mathlib

/-!
Verification development for the media-download backend (src/app.py,
src/services/task_service.py, src/utils/file_cleanup.py).

The download pipeline is embedded shallowly: Python dictionaries become
association lists keyed by session id, the filesystem becomes lists of
existing file paths and directory paths, network and extractor behaviour
is supplied through an environment record, and each Flask handler becomes
a pure function from (environment, state) to (response, state).

Numeric percentages, which the source computes with Python floats, are
modelled over ℚ; none of the statements below depends on float rounding
artifacts (the concrete values exercised are exactly representable).
-/

namespace DL

/-- Outcome of `socket.gethostbyname` followed by `ipaddress.ip_address`:
either an address classified as private/loopback/reserved/link-local or
not, or an exception (DNS failure, bad literal). -/
inductive DNS
  | resolved (isPrivate : Bool)
  | failure
deriving DecidableEq

/-- Character-level `startswith` (kernel-reducible stand-in for
`String.startsWith`). -/
def startsWithStr (p s : String) : Bool := p.data.isPrefixOf s.data

/-- Character-level `endswith` (kernel-reducible stand-in for
`String.endsWith`). -/
def endsWithStr (suf s : String) : Bool := suf.data.isSuffixOf s.data

/-- Split a character list at the first occurrence of a literal pattern,
returning the pieces before and after it. -/
def breakOnSub (pat : List Char) : List Char → Option (List Char × List Char)
  | [] => if pat = [] then some ([], []) else none
  | c :: rest =>
    if pat.isPrefixOf (c :: rest) then some ([], (c :: rest).drop pat.length)
    else
      match breakOnSub pat rest with
      | some (pre, post) => some (c :: pre, post)
      | none => none

/-- `host.split(':', 1)[0]`: the host with any `:port` suffix dropped. -/
def hostBeforeColon (h : String) : String := ⟨h.data.takeWhile (· ≠ ':')⟩

/-- `_host_is_private` (src/app.py:813-820).  Resolves the hostname and
classifies the address.  NOTE: the `except Exception: return False` means a
resolution error is reported as "not private". -/
def host_is_private (resolve : String → DNS) (host : String) : Bool :=
  match resolve (hostBeforeColon host) with
  | DNS.resolved p => p
  | DNS.failure => false

/-- The fields of `urllib.parse.urlparse` that `is_safe_public_url` reads. -/
structure UrlParts where
  scheme : String
  netloc : String
  hostname : String
deriving DecidableEq

/-- Lowercase a string character by character (kernel-reducible stand-in
for `String.toLower`). -/
def lowerStr (s : String) : String := ⟨s.data.map Char.toLower⟩

/-- `urllib.parse.urlparse`, modelled on the `scheme://host[:port]/path...`
subset the pipeline feeds it: scheme is everything before the first `://`
(lowercased), netloc runs from there to the next `/`, `?` or `#`, and
hostname is the netloc without the port, lowercased. -/
def urlparse (raw : String) : UrlParts :=
  match breakOnSub "://".data raw.data with
  | some (schemeChars, rest) =>
    let netloc : String := ⟨rest.takeWhile (fun c => c ≠ '/' ∧ c ≠ '?' ∧ c ≠ '#')⟩
    { scheme := lowerStr ⟨schemeChars⟩, netloc := netloc,
      hostname := lowerStr (hostBeforeColon netloc) }
  | none => { scheme := "", netloc := "", hostname := "" }

/-- `is_safe_public_url` (src/app.py:822-836). -/
def is_safe_public_url (resolve : String → DNS) (raw : String)
    (allow_hosts : Option (List String)) : Bool :=
  let u := urlparse raw
  if ¬ (u.scheme = "http" ∨ u.scheme = "https") then false
  else if u.netloc = "" then false
  else if host_is_private resolve u.netloc then false
  else
    match allow_hosts with
    | some allowed =>
      -- `if allow_hosts:` — an empty allow-list is falsy and is skipped
      if allowed ≠ [] then allowed.any (fun a => endsWithStr a u.hostname)
      else true
    | none => true

/-- Python truthiness for an optional string (`None` and `''` are falsy). -/
def strTruthy : Option String → Bool
  | none => false
  | some s => s ≠ ""

/-- One entry of an `extract_bilibili_tv_info` result's `formats` list
(only the fields the refresh logic reads). -/
structure Fmt where
  format_id : String
  url : String
deriving DecidableEq

/-- A value of `get_download_url.pending_downloads[session_id]`
(src/app.py:1016-1022). -/
structure SessionInfo where
  video_url : Option String
  direct_url : Option String
  format_id : Option String
  filename : String
  platform : String
deriving DecidableEq

/-- Overwrite-or-insert for a dict modelled as an association list. -/
def setKey {α : Type} (k : String) (v : α) (l : List (String × α)) :
    List (String × α) :=
  (k, v) :: l.filter (fun p => p.1 ≠ k)

/-- `del d[k]` for a dict modelled as an association list. -/
def eraseKey {α : Type} (k : String) (l : List (String × α)) :
    List (String × α) :=
  l.filter (fun p => p.1 ≠ k)

/-- The Bilibili.tv URL refresh (src/app.py:1076-1094 and 1322-1345):
re-extract, pick the format matching `format_id`, fall back to the first
format, and keep the original URL if re-extraction failed or returned no
formats. -/
def refreshDirectUrl (freshFormats : Option (List Fmt))
    (format_id : Option String) (orig : Option String) : Option String :=
  match freshFormats with
  | some (f :: fs) =>
    match (f :: fs).find? (fun fmt => some fmt.format_id = format_id) with
    | some fmt => some fmt.url
    | none => some f.url
  | _ => orig

/-- Environment for one `force_download` request: DNS answers, the
re-extraction result, the upstream HTTP response, the size-limit
configuration, and the yt-dlp outcome. -/
structure FDEnv where
  resolve : String → DNS
  /-- `extract_bilibili_tv_info(video_url)`; `none` models failure or an
  empty `formats` list. -/
  freshFormats : Option (List Fmt) := none
  upstreamStatus : ℕ := 200
  /-- Numeric `content-length` header; `none` models an absent (or
  unparsable, the `int()` error being swallowed) header, for which the
  size check is skipped (`cl` stays 0 / the `try` passes). -/
  contentLength : Option ℕ := none
  /-- `MAX_DOWNLOAD_SIZE_MB` (default 500). -/
  maxMB : ℕ := 500
  /-- yt-dlp path: `none` = `ydl.download` raised (outer `except` → 500);
  `some false` = no downloaded file found ("Download failed", 500);
  `some true` = file found and streamed. -/
  ytdlpOutcome : Option Bool := some true

/-- Responses of `force_download` (src/app.py:1054-1218). -/
inductive FDResult
  | notFound404
  | unsafe400
  | tooLarge413
  | upstreamFail (status : ℕ)
  | downloadFailed500
  | serverError500
  | streamDirect
  | streamFile
deriving DecidableEq

/-- Is the response one that streams the payload to the client? -/
def FDResult.isStream : FDResult → Bool
  | FDResult.streamDirect => true
  | FDResult.streamFile => true
  | _ => false

/-- `force_download` (src/app.py:1054-1218) over the Session Registry
(`get_download_url.pending_downloads`).  Returns the response and the
registry afterwards.  The session entry is looked up with `.get` and only
`del`eted on the two paths that reach the streaming `Response`; every
failure path leaves the registry untouched. -/
def force_download (env : FDEnv) (reg : List (String × SessionInfo))
    (sid : String) : FDResult × List (String × SessionInfo) :=
  match reg.lookup sid with
  | none => (FDResult.notFound404, reg)
  | some info =>
    -- SPECIAL: bilibili_tv refreshes the direct URL first
    let direct_url :=
      if info.platform = "bilibili_tv" ∧ strTruthy info.video_url then
        refreshDirectUrl env.freshFormats info.format_id info.direct_url
      else info.direct_url
    -- `if direct_url and direct_url.startswith('http')`
    let du := direct_url.getD ""
    if startsWithStr "http" du then
      if ¬ is_safe_public_url env.resolve du none then (FDResult.unsafe400, reg)
      else
        let maxBytes := env.maxMB * 1024 * 1024
        let tooLarge : Bool :=
          match env.contentLength with
          | some cl => cl ≠ 0 ∧ cl > maxBytes
          | none => false
        if tooLarge then (FDResult.tooLarge413, reg)
        else if env.upstreamStatus ≠ 200 then
          (FDResult.upstreamFail env.upstreamStatus, reg)
        else
          -- `del get_download_url.pending_downloads[session_id]`, then stream
          (FDResult.streamDirect, eraseKey sid reg)
    else
      -- yt-dlp fallback path
      match env.ytdlpOutcome with
      | none => (FDResult.serverError500, reg)
      | some false => (FDResult.downloadFailed500, reg)
      | some true => (FDResult.streamFile, eraseKey sid reg)

/-- A Progress Snapshot: one value of `download_progress[session_id]`
(src/app.py:100, written by `_update_progress`). -/
structure Snap where
  status : String
  message : String
  percent : Option ℚ := none
  downloaded : Option ℕ := none
  total : Option ℕ := none
deriving DecidableEq

/-- Python's `round(x, 1)` over ℚ.  (The source rounds floats half to
even; ℚ's `round` is half up.  Both are monotone and agree away from
ties, and no statement below depends on tie behaviour.) -/
def round1 (q : ℚ) : ℚ := (round (10 * q) : ℤ) / 10

/-- The columns of the `DownloadTask` row (src/models.py) that the claims
read: lifecycle status/message and the registered storage location.
(Timestamps and expiry, which every service call refreshes, live in the
Retention Sweeper model further below.) -/
structure TaskMirror where
  status : Option String := none
  message : Option String := none
  storage_path : Option String := none
  file_size : Option ℕ := none
deriving DecidableEq

/-- The process state the download pipeline mutates: the Progress Store,
the Task Records, and the filesystem (existing files and directories). -/
structure SrvState where
  progress : List (String × Snap) := []
  tasks : List (String × TaskMirror) := []
  files : List String := []
  dirs : List String := []
deriving DecidableEq

/-- `task_service.upsert_task` (src/services/task_service.py:21-39)
restricted to the modelled columns: create the row with status "pending"
when absent (the call sites' defaults carry no modelled column, and a
fresh row with no status gets "pending"); an existing row keeps its
modelled columns (expiry/timestamps, not modelled here, are refreshed). -/
def svc_upsert (sid : String) (tasks : List (String × TaskMirror)) :
    List (String × TaskMirror) :=
  match tasks.lookup sid with
  | some _ => tasks
  | none => setKey sid { status := some "pending" } tasks

/-- `task_service.mark_status` (src/services/task_service.py:42-50):
upsert, then set status and — when the message is truthy — the message. -/
def svc_mark_status (sid status message : String)
    (tasks : List (String × TaskMirror)) : List (String × TaskMirror) :=
  let tasks' := svc_upsert sid tasks
  match tasks'.lookup sid with
  | some t =>
    setKey sid
      { t with status := some status,
               message := if message ≠ "" then some message else t.message }
      tasks'
  | none => tasks'

/-- `task_service.register_storage` (src/services/task_service.py:53-60):
upsert, then set the storage path (always) and the file size (when
given). -/
def svc_register_storage (sid path : String) (fsize : Option ℕ)
    (tasks : List (String × TaskMirror)) : List (String × TaskMirror) :=
  let tasks' := svc_upsert sid tasks
  match tasks'.lookup sid with
  | some t =>
    setKey sid
      { t with storage_path := some path,
               file_size := match fsize with
                            | some n => some n
                            | none => t.file_size }
      tasks'
  | none => tasks'

/-- `_update_progress` (src/app.py:103-111): store the snapshot in the
Progress Store and mirror status/message into the Task Record. -/
def update_progress (sid : String) (p : Snap) (st : SrvState) : SrvState :=
  { st with progress := setKey sid p st.progress,
            tasks := svc_mark_status sid p.status p.message st.tasks }

/-- `_update_progress` threaded together with the trace of snapshots
written during the request (the sequence the Progress Publisher can
observe). -/
def logUpdate (sid : String) (p : Snap) : SrvState × List Snap → SrvState × List Snap :=
  fun acc => (update_progress sid p acc.1, acc.2 ++ [p])

/-- One yt-dlp progress callback dictionary (the keys `progress_hook`
reads). -/
structure HookEvent where
  hstatus : String
  total_bytes : Option ℕ := none
  total_bytes_estimate : Option ℕ := none
  downloaded_bytes : Option ℕ := none
deriving DecidableEq

/-- `progress_hook` (src/app.py:1441-1483).  A key that is present with
value 0 takes the same branch as an absent key (Python falsiness), and a
missing `downloaded_bytes` in the percent branches raises a KeyError that
the hook's own `except` swallows — no snapshot is written. -/
def progress_hook (sid : String) (acc : SrvState × List Snap)
    (d : HookEvent) : SrvState × List Snap :=
  if d.hstatus = "downloading" then
    if d.total_bytes.getD 0 ≠ 0 then
      match d.downloaded_bytes with
      | some db =>
        logUpdate sid
          { status := "downloading", message := "Downloading video...",
            percent := some (round1 ((db : ℚ) * 100 / (d.total_bytes.getD 0 : ℚ))),
            downloaded := some db, total := d.total_bytes } acc
      | none => acc
    else if d.total_bytes_estimate.getD 0 ≠ 0 then
      match d.downloaded_bytes with
      | some db =>
        logUpdate sid
          { status := "downloading", message := "Downloading video...",
            percent := some (round1 ((db : ℚ) * 100 / (d.total_bytes_estimate.getD 0 : ℚ))),
            downloaded := some db, total := d.total_bytes_estimate } acc
      | none => acc
    else
      match d.downloaded_bytes with
      | some db =>
        logUpdate sid
          { status := "downloading", message := "Downloading video...",
            downloaded := some db } acc
      | none => acc
  else if d.hstatus = "finished" then
    logUpdate sid
      { status := "processing",
        message := "Memproses video (merging audio+video)...",
        percent := some 95 } acc
  else acc

/-- The direct-download chunk loop (src/app.py:1380-1393): write each
truthy chunk, and — when a total size is known — store a snapshot with
the rounded running percentage. -/
def directChunkFold (sid : String) (total : ℕ) :
    List ℕ → ℕ → SrvState × List Snap → SrvState × List Snap
  | [], _, acc => acc
  | c :: rest, downloaded, acc =>
    if c ≠ 0 then
      if total ≠ 0 then
        directChunkFold sid total rest (downloaded + c)
          (logUpdate sid
            { status := "downloading", message := "Downloading video...",
              percent := some (round1 (((downloaded + c : ℕ) : ℚ) * 100 / (total : ℚ))),
              downloaded := some (downloaded + c), total := some total } acc)
      else directChunkFold sid total rest (downloaded + c) acc
    else directChunkFold sid total rest downloaded acc

/-- The direct-mode generator's `finally` (src/app.py:1417-1424): remove
the temp file, then `os.rmdir` the temp directory — which succeeds only
when the directory is now empty, any error being swallowed.  The Progress
Store is NOT touched. -/
def cleanupFileDir (file dir : String) (st : SrvState) : SrvState :=
  let st1 := { st with files := st.files.filter (· ≠ file) }
  if st1.files.any (fun f => startsWithStr (dir ++ "/") f) then st1
  else { st1 with dirs := st1.dirs.filter (· ≠ dir) }

/-- The yt-dlp generator's `finally` (src/app.py:1541-1556): remove the
file, `os.rmdir` the directory, then delete the Progress Store entry —
all inside ONE `try`, so a failing `rmdir` (non-empty directory) skips
the progress deletion. -/
def ytdlpStreamCleanup (sid file dir : String) (st : SrvState) : SrvState :=
  let st1 := { st with files := st.files.filter (· ≠ file) }
  if st1.files.any (fun f => startsWithStr (dir ++ "/") f) then st1
  else { st1 with dirs := st1.dirs.filter (· ≠ dir),
                  progress := eraseKey sid st1.progress }

/-- Environment for one `proxy_download` request: the request fields, the
DNS oracle, the re-extraction result, the size-limit configuration, the
upstream response, the fresh temp directory name, and the yt-dlp run. -/
structure YtdlpRun where
  /-- The progress-callback invocations yt-dlp makes. -/
  events : List HookEvent
  /-- `ydl.prepare_filename(info)`: the downloaded file's path. -/
  outFile : String
  fileSize : ℕ
deriving DecidableEq

structure PDEnv where
  video_url : Option String := none
  direct_url : Option String := none
  format_id : Option String := none
  filename : String := "video.mp4"
  session_id : String
  platform : String := ""
  resolve : String → DNS := fun _ => DNS.resolved false
  freshFormats : Option (List Fmt) := none
  /-- `MAX_DOWNLOAD_SIZE_MB` (default 500). -/
  maxMB : ℕ := 500
  /-- The upstream HTTP status.  NOTE: `proxy_download`'s direct mode
  never consults `response.status_code`; the field exists so C6 can be
  stated. -/
  upstreamStatus : ℕ := 200
  /-- Numeric `content-length`; `none` models an absent header. -/
  contentLength : Option ℕ := none
  /-- The sizes of the chunks `iter_content` yields. -/
  chunks : List ℕ := []
  /-- `requests.get` raised (network failure). -/
  fetchRaises : Bool := false
  /-- `tempfile.mkdtemp()`'s fresh directory. -/
  tempDir : String := "/tmp/dl"
  /-- The yt-dlp run; `none` models `ydl.extract_info` raising. -/
  ytdlp : Option YtdlpRun := none

/-- Responses of `proxy_download` (src/app.py:1269-1585). -/
inductive PDResult
  | missingUrl400
  | unsafe400
  | tooLarge413
  | downloadFailed500
  | streamDirect
  | streamFile
deriving DecidableEq

/-- The tail of `proxy_download`'s direct-stream mode (src/app.py:
1347-1433), from `tempfile.mkdtemp()` onward: register the temp path,
store the kickoff "downloading 10%" snapshot, fetch (which may raise),
enforce the size ceiling, run the chunk loop, register the final size,
mark "streaming", and — once the body has been streamed or the client
disconnected — run the generator's `finally`.  `acc2` is the state and
snapshot trace accumulated by the handler so far. -/
def directModeRun (env : PDEnv) (acc2 : SrvState × List Snap) :
    PDResult × SrvState × List Snap :=
  let sid := env.session_id
  let temp_file := env.tempDir ++ "/" ++ env.filename
  let st3 := { acc2.1 with
    dirs := env.tempDir :: acc2.1.dirs,
    tasks := svc_register_storage sid temp_file none acc2.1.tasks }
  let acc3 := logUpdate sid
    { status := "downloading",
      message := "Downloading " ++ env.platform ++ " video...",
      percent := some 10 } (st3, acc2.2)
  if env.fetchRaises then
    -- outer except: clear the progress entry, answer 500
    (PDResult.downloadFailed500,
     { acc3.1 with progress := eraseKey sid acc3.1.progress }, acc3.2)
  else
    let tooLarge : Bool :=
      match env.contentLength with
      | some cl => cl ≠ 0 ∧ cl > env.maxMB * 1024 * 1024
      | none => false
    if tooLarge then (PDResult.tooLarge413, acc3)
    else
      let total_size := env.contentLength.getD 0
      -- open(temp_file, 'wb') creates the file before any chunk
      let st4 := { acc3.1 with files := temp_file :: acc3.1.files }
      let acc4 := directChunkFold sid total_size env.chunks 0 (st4, acc3.2)
      let st5 := { acc4.1 with
        tasks := svc_register_storage sid temp_file
          (some env.chunks.sum) acc4.1.tasks }
      let acc5 := logUpdate sid
        { status := "streaming", message := "Mengirim file ke browser...",
          percent := some 100 } (st5, acc4.2)
      (PDResult.streamDirect,
       cleanupFileDir temp_file env.tempDir acc5.1, acc5.2)

/-- The tail of `proxy_download`'s delegated yt-dlp mode (src/app.py:
1435-1576), from `tempfile.mkdtemp()` onward: store the "extracting"
snapshot, run yt-dlp with its progress hook (or fail), mark "streaming",
and — once the body has been streamed or the client disconnected — run
the generator's `finally`. -/
def ytdlpModeRun (env : PDEnv) (acc1 : SrvState × List Snap) :
    PDResult × SrvState × List Snap :=
  let sid := env.session_id
  let st3 := { acc1.1 with dirs := env.tempDir :: acc1.1.dirs }
  let acc3 := logUpdate sid
    { status := "extracting", message := "Mengambil informasi video...",
      percent := some 5 } (st3, acc1.2)
  match env.ytdlp with
  | none =>
    -- outer except: clear the progress entry, answer 500
    (PDResult.downloadFailed500,
     { acc3.1 with progress := eraseKey sid acc3.1.progress }, acc3.2)
  | some run =>
    let acc4 := run.events.foldl (progress_hook sid) acc3
    let st5 := { acc4.1 with files := run.outFile :: acc4.1.files }
    let acc5 := logUpdate sid
      { status := "streaming", message := "Mengirim file ke browser...",
        percent := some 100 } (st5, acc4.2)
    (PDResult.streamFile,
     ytdlpStreamCleanup sid run.outFile env.tempDir acc5.1, acc5.2)

/-- `proxy_download` (src/app.py:1269-1585).  Returns the response, the
process state once the response body has been fully streamed or the
client disconnected (the generators' `finally` blocks having run on the
streaming paths), and the trace of Progress Snapshots written. -/
def proxy_download (env : PDEnv) (st0 : SrvState) :
    PDResult × SrvState × List Snap :=
  let sid := env.session_id
  if ¬ (strTruthy env.video_url ∨ strTruthy env.direct_url) then
    -- 'Video URL is required', 400 — before any state is created
    (PDResult.missingUrl400, st0, [])
  else
    let st1 : SrvState := { st0 with tasks := svc_upsert sid st0.tasks }
    let acc1 := logUpdate sid
      { status := "starting", message := "Memulai download...",
        percent := some 0 } (st1, [])
    if strTruthy env.direct_url ∧
        (env.platform = "instagram" ∨ env.platform = "bilibili_tv") then
      -- direct-stream mode
      if ¬ is_safe_public_url env.resolve (env.direct_url.getD "") none then
        -- 400 AFTER the Task Record and the starting snapshot were created
        (PDResult.unsafe400, acc1)
      else
        -- SPECIAL: bilibili_tv refresh (the refreshed URL is fetched
        -- through the same env oracle)
        let acc2 :=
          if env.platform = "bilibili_tv" then
            logUpdate sid
              { status := "extracting", message := "Refreshing video URL...",
                percent := some 5 } acc1
          else acc1
        directModeRun env acc2
    else
      -- delegated yt-dlp mode
      ytdlpModeRun env acc1

/-- Overwriting a key makes subsequent lookups find the new value. -/
theorem lookup_setKey {α : Type} (k : String) (v : α) (l : List (String × α)) :
    (setKey k v l).lookup k = some v := by
  simp [setKey, List.lookup]

/-- After an upsert the row exists. -/
theorem lookup_svc_upsert (sid : String) (ts : List (String × TaskMirror)) :
    ∃ t, (svc_upsert sid ts).lookup sid = some t := by
  unfold svc_upsert
  cases h : ts.lookup sid with
  | some t => exact ⟨t, by rw [h]⟩
  | none => exact ⟨_, lookup_setKey ..⟩

/-- `mark_status` on an existing row: status and (truthy) message are
replaced, the other columns are kept. -/
theorem svc_mark_status_existing (sid s m : String)
    (ts : List (String × TaskMirror)) (t : TaskMirror)
    (h : ts.lookup sid = some t) :
    (svc_mark_status sid s m ts).lookup sid =
      some { t with status := some s,
                    message := if m ≠ "" then some m else t.message } := by
  unfold svc_mark_status svc_upsert
  rw [h]
  simp only [h]
  exact lookup_setKey ..

/-- After `mark_status` the row exists, has the given status, and keeps
whatever storage path the row had (none when the row was fresh). -/
theorem lookup_svc_mark_status (sid s m : String)
    (ts : List (String × TaskMirror)) :
    ∃ t, (svc_mark_status sid s m ts).lookup sid = some t ∧
      t.status = some s ∧
      t.storage_path = ((svc_upsert sid ts).lookup sid).bind TaskMirror.storage_path := by
  unfold svc_mark_status
  obtain ⟨t, ht⟩ := lookup_svc_upsert sid ts
  simp only [ht]
  exact ⟨_, lookup_setKey .., rfl, by simp [ht]⟩

/-- After `register_storage` the row exists and carries the path. -/
theorem lookup_svc_register_storage (sid p : String) (fs : Option ℕ)
    (ts : List (String × TaskMirror)) :
    ∃ t, (svc_register_storage sid p fs ts).lookup sid = some t ∧
      t.storage_path = some p := by
  unfold svc_register_storage
  obtain ⟨t, ht⟩ := lookup_svc_upsert sid ts
  simp only [ht]
  exact ⟨_, lookup_setKey .., rfl⟩

/-- The storage path a session's Task Record carries (none when there is
no record). -/
def taskStorage (sid : String) (ts : List (String × TaskMirror)) : Option String :=
  (ts.lookup sid).bind TaskMirror.storage_path

/-- Upserting never changes the stored storage path (a fresh row has
none). -/
theorem taskStorage_svc_upsert (sid : String) (ts : List (String × TaskMirror)) :
    taskStorage sid (svc_upsert sid ts) = taskStorage sid ts := by
  unfold taskStorage svc_upsert
  cases h : ts.lookup sid with
  | some t => rw [h]
  | none => simp [h, lookup_setKey]

/-- `mark_status` never changes the stored storage path. -/
theorem taskStorage_svc_mark_status (sid s m : String)
    (ts : List (String × TaskMirror)) :
    taskStorage sid (svc_mark_status sid s m ts) = taskStorage sid ts := by
  obtain ⟨t, ht, _, hst⟩ := lookup_svc_mark_status sid s m ts
  have h2 := taskStorage_svc_upsert sid ts
  unfold taskStorage at h2 ⊢
  rw [ht]
  simpa [hst] using h2

/-- `_update_progress` never changes the stored storage path. -/
theorem taskStorage_update_progress (sid : String) (p : Snap) (st : SrvState) :
    taskStorage sid (update_progress sid p st).tasks = taskStorage sid st.tasks := by
  unfold update_progress
  exact taskStorage_svc_mark_status ..

/-- A single progress-hook call never changes the stored storage path. -/
theorem taskStorage_progress_hook (sid : String) (acc : SrvState × List Snap)
    (d : HookEvent) :
    taskStorage sid (progress_hook sid acc d).1.tasks = taskStorage sid acc.1.tasks := by
  unfold progress_hook logUpdate
  (repeat' split) <;> first
    | rfl
    | exact taskStorage_update_progress ..

/-- A whole run of progress-hook callbacks never changes the stored
storage path. -/
theorem taskStorage_hook_fold (sid : String) (ds : List HookEvent)
    (acc : SrvState × List Snap) :
    taskStorage sid (ds.foldl (progress_hook sid) acc).1.tasks =
      taskStorage sid acc.1.tasks := by
  induction ds generalizing acc with
  | nil => rfl
  | cons d ds ih => rw [List.foldl_cons, ih, taskStorage_progress_hook]

/-- Deleting a key makes subsequent lookups miss. -/
theorem lookup_eraseKey {α : Type} (k : String) (l : List (String × α)) :
    (eraseKey k l).lookup k = none := by
  induction l with
  | nil => rfl
  | cons p t ih =>
    by_cases h : p.1 = k
    · simpa [eraseKey, h] using ih
    · simpa [eraseKey, List.filter_cons, h, List.lookup,
        show (k == p.1) = false by simpa using fun e => h e.symm] using ih

theorem logUpdate_files (sid : String) (p : Snap) (acc : SrvState × List Snap) :
    (logUpdate sid p acc).1.files = acc.1.files := rfl

theorem logUpdate_dirs (sid : String) (p : Snap) (acc : SrvState × List Snap) :
    (logUpdate sid p acc).1.dirs = acc.1.dirs := rfl

/-- The chunk loop touches only the Progress Store and the Task Record:
files and directories are left alone. -/
theorem directChunkFold_files_dirs (sid : String) (total : ℕ) :
    ∀ (chunks : List ℕ) (d : ℕ) (acc : SrvState × List Snap),
      (directChunkFold sid total chunks d acc).1.files = acc.1.files ∧
      (directChunkFold sid total chunks d acc).1.dirs = acc.1.dirs := by
  intro chunks
  induction chunks with
  | nil => intro d acc; exact ⟨rfl, rfl⟩
  | cons c rest ih =>
    intro d acc
    unfold directChunkFold
    by_cases hc : c ≠ 0
    · rw [if_pos hc]
      by_cases ht : total ≠ 0
      · rw [if_pos ht]
        exact ih (d + c) _
      · rw [if_neg ht]
        exact ih (d + c) acc
    · rw [if_neg hc]
      exact ih d acc

theorem update_progress_files (sid : String) (p : Snap) (st : SrvState) :
    (update_progress sid p st).files = st.files := rfl

/-- A progress-hook run touches only the Progress Store and the Task
Record. -/
theorem hook_fold_files_dirs (sid : String) (ds : List HookEvent) :
    ∀ (acc : SrvState × List Snap),
      ((ds.foldl (progress_hook sid) acc).1.files = acc.1.files ∧
       (ds.foldl (progress_hook sid) acc).1.dirs = acc.1.dirs) := by
  induction ds with
  | nil => intro acc; exact ⟨rfl, rfl⟩
  | cons d ds ih =>
    intro acc
    rw [List.foldl_cons]
    refine ⟨(ih _).1.trans ?_, (ih _).2.trans ?_⟩ <;>
      · unfold progress_hook logUpdate
        (repeat' split) <;> rfl

theorem cleanupFileDir_files (f d : String) (st : SrvState) :
    (cleanupFileDir f d st).files = st.files.filter (· ≠ f) := by
  simp only [cleanupFileDir]
  split <;> rfl

theorem cleanupFileDir_progress (f d : String) (st : SrvState) :
    (cleanupFileDir f d st).progress = st.progress := by
  simp only [cleanupFileDir]
  split <;> rfl

theorem cleanupFileDir_tasks (f d : String) (st : SrvState) :
    (cleanupFileDir f d st).tasks = st.tasks := by
  simp only [cleanupFileDir]
  split <;> rfl

/-- When no other file lives under the temp directory, its rmdir
succeeds. -/
theorem cleanupFileDir_dirs (f d : String) (st : SrvState)
    (h : (st.files.filter (· ≠ f)).any (fun x => startsWithStr (d ++ "/") x) = false) :
    (cleanupFileDir f d st).dirs = st.dirs.filter (· ≠ d) := by
  simp only [cleanupFileDir]
  rw [if_neg (fun hx => absurd (h ▸ hx) Bool.false_ne_true)]

theorem ytdlpStreamCleanup_files (sid f d : String) (st : SrvState) :
    (ytdlpStreamCleanup sid f d st).files = st.files.filter (· ≠ f) := by
  simp only [ytdlpStreamCleanup]
  split <;> rfl

theorem ytdlpStreamCleanup_tasks (sid f d : String) (st : SrvState) :
    (ytdlpStreamCleanup sid f d st).tasks = st.tasks := by
  simp only [ytdlpStreamCleanup]
  split <;> rfl

/-- When no other file lives under the temp directory, rmdir succeeds and
the progress deletion that follows it in the same try block runs. -/
theorem ytdlpStreamCleanup_ok (sid f d : String) (st : SrvState)
    (h : (st.files.filter (· ≠ f)).any (fun x => startsWithStr (d ++ "/") x) = false) :
    (ytdlpStreamCleanup sid f d st).dirs = st.dirs.filter (· ≠ d) ∧
    (ytdlpStreamCleanup sid f d st).progress = eraseKey sid st.progress := by
  simp only [ytdlpStreamCleanup]
  rw [if_neg (fun hx => absurd (h ▸ hx) Bool.false_ne_true)]
  exact ⟨rfl, rfl⟩

theorem logUpdate_tasks (sid : String) (p : Snap) (acc : SrvState × List Snap) :
    (logUpdate sid p acc).1.tasks =
      svc_mark_status sid p.status p.message acc.1.tasks := rfl

theorem logUpdate_progress (sid : String) (p : Snap) (acc : SrvState × List Snap) :
    (logUpdate sid p acc).1.progress = setKey sid p acc.1.progress := rfl

theorem directChunkFold_files (sid : String) (total : ℕ) (chunks : List ℕ)
    (d : ℕ) (acc : SrvState × List Snap) :
    (directChunkFold sid total chunks d acc).1.files = acc.1.files :=
  (directChunkFold_files_dirs sid total chunks d acc).1

theorem directChunkFold_dirs (sid : String) (total : ℕ) (chunks : List ℕ)
    (d : ℕ) (acc : SrvState × List Snap) :
    (directChunkFold sid total chunks d acc).1.dirs = acc.1.dirs :=
  (directChunkFold_files_dirs sid total chunks d acc).2

theorem hook_fold_files (sid : String) (ds : List HookEvent)
    (acc : SrvState × List Snap) :
    ((ds.foldl (progress_hook sid) acc).1.files = acc.1.files) :=
  (hook_fold_files_dirs sid ds acc).1

theorem hook_fold_dirs (sid : String) (ds : List HookEvent)
    (acc : SrvState × List Snap) :
    ((ds.foldl (progress_hook sid) acc).1.dirs = acc.1.dirs) :=
  (hook_fold_files_dirs sid ds acc).2

/-- A temp-dir whose contents are gone can be rmdir-ed, so it drops out
of the directory list. -/
theorem cleanupFileDir_dirs_not_mem (f d : String) (st : SrvState)
    (h : (st.files.filter (· ≠ f)).any (fun x => startsWithStr (d ++ "/") x) = false) :
    d ∉ (cleanupFileDir f d st).dirs := by
  rw [cleanupFileDir_dirs f d st h]
  simp [List.mem_filter]

theorem ytdlpStreamCleanup_dirs_not_mem (sid f d : String) (st : SrvState)
    (h : (st.files.filter (· ≠ f)).any (fun x => startsWithStr (d ++ "/") x) = false) :
    d ∉ (ytdlpStreamCleanup sid f d st).dirs := by
  rw [(ytdlpStreamCleanup_ok sid f d st h).1]
  simp [List.mem_filter]

theorem ytdlpStreamCleanup_progress_none (sid f d : String) (st : SrvState)
    (h : (st.files.filter (· ≠ f)).any (fun x => startsWithStr (d ++ "/") x) = false) :
    (ytdlpStreamCleanup sid f d st).progress.lookup sid = none := by
  rw [(ytdlpStreamCleanup_ok sid f d st h).2]
  exact lookup_eraseKey ..

/-- `mark_status` right after `register_storage`: the row says the given
status and still carries the registered path. -/
theorem mark_after_register (sid s m p : String) (fs : Option ℕ)
    (ts : List (String × TaskMirror)) :
    ∃ t, (svc_mark_status sid s m (svc_register_storage sid p fs ts)).lookup sid =
        some t ∧ t.status = some s ∧ t.storage_path = some p := by
  obtain ⟨t1, ht1, hsp⟩ := lookup_svc_register_storage sid p fs ts
  rw [svc_mark_status_existing sid s m _ t1 ht1]
  exact ⟨_, rfl, rfl, hsp⟩

/-- `mark_status` sets the status and keeps whatever storage path the
rows already carried. -/
theorem mark_status_lookup_storage (sid s m : String)
    (ts : List (String × TaskMirror)) (sp : Option String)
    (hsp : taskStorage sid ts = sp) :
    ∃ t, (svc_mark_status sid s m ts).lookup sid = some t ∧
      t.status = some s ∧ t.storage_path = sp := by
  obtain ⟨t, ht, hstat, h2⟩ := lookup_svc_mark_status sid s m ts
  refine ⟨t, ht, hstat, ?_⟩
  rw [h2, ← hsp]
  exact taskStorage_svc_upsert sid ts

/-- A raising fetch makes the direct-mode tail answer 500 with the
progress entry cleared. -/
theorem directModeRun_raises (env : PDEnv) (acc : SrvState × List Snap)
    (h : env.fetchRaises = true) :
    (directModeRun env acc).1 = PDResult.downloadFailed500 ∧
    (directModeRun env acc).2.1.progress.lookup env.session_id = none := by
  unfold directModeRun
  rw [if_pos h]
  exact ⟨rfl, lookup_eraseKey ..⟩

/-- An oversized Content-Length makes the direct-mode tail answer 413
without creating the temp file. -/
theorem directModeRun_tooLarge (env : PDEnv) (acc : SrvState × List Snap)
    (hnr : env.fetchRaises = false) (cl : ℕ)
    (hcl : env.contentLength = some cl)
    (hbig : cl > env.maxMB * 1024 * 1024) :
    (directModeRun env acc).1 = PDResult.tooLarge413 ∧
    (directModeRun env acc).2.1.files = acc.1.files := by
  have hne : cl ≠ 0 := Nat.pos_iff_ne_zero.mp (lt_of_le_of_lt (Nat.zero_le _) hbig)
  unfold directModeRun
  rw [if_neg (by rw [hnr]; exact Bool.false_ne_true)]
  have htl : (match env.contentLength with
      | some cl0 => decide (cl0 ≠ 0 ∧ cl0 > env.maxMB * 1024 * 1024)
      | none => false) = true := by
    rw [hcl]
    simp [hne, hbig]
  rw [htl, if_pos rfl]
  exact ⟨rfl, rfl⟩

/-- Within the size ceiling and with a working fetch, the direct-mode
tail streams. -/
theorem directModeRun_stream (env : PDEnv) (acc : SrvState × List Snap)
    (hnr : env.fetchRaises = false)
    (hsz : ∀ cl, env.contentLength = some cl →
      ¬(cl ≠ 0 ∧ cl > env.maxMB * 1024 * 1024)) :
    (directModeRun env acc).1 = PDResult.streamDirect := by
  unfold directModeRun
  rw [if_neg (by rw [hnr]; exact Bool.false_ne_true)]
  have htl : (match env.contentLength with
      | some cl0 => decide (cl0 ≠ 0 ∧ cl0 > env.maxMB * 1024 * 1024)
      | none => false) = false := by
    rcases hc : env.contentLength with _ | cl
    · rfl
    · simpa using hsz cl hc
  rw [htl, if_neg (fun hx => Bool.false_ne_true hx)]

/-- The direct-mode tail on the full success path: file and directory are
cleaned up after streaming, but the Progress Store entry survives and the
Task Record is left in "streaming" with the storage path still set. -/
theorem directModeRun_final (env : PDEnv) (acc : SrvState × List Snap)
    (hnr : env.fetchRaises = false)
    (hsz : ∀ cl, env.contentLength = some cl →
      ¬(cl ≠ 0 ∧ cl > env.maxMB * 1024 * 1024))
    (hfresh : ∀ f ∈ acc.1.files, startsWithStr (env.tempDir ++ "/") f = false) :
    (directModeRun env acc).1 = PDResult.streamDirect ∧
    (env.tempDir ++ "/" ++ env.filename) ∉ (directModeRun env acc).2.1.files ∧
    env.tempDir ∉ (directModeRun env acc).2.1.dirs ∧
    (directModeRun env acc).2.1.progress.lookup env.session_id =
      some { status := "streaming", message := "Mengirim file ke browser...",
             percent := some 100 } ∧
    ∃ t, (directModeRun env acc).2.1.tasks.lookup env.session_id = some t ∧
      t.status = some "streaming" ∧
      t.storage_path = some (env.tempDir ++ "/" ++ env.filename) := by
  have hany : (((env.tempDir ++ "/" ++ env.filename) :: acc.1.files).filter
      (· ≠ env.tempDir ++ "/" ++ env.filename)).any
      (fun x => startsWithStr (env.tempDir ++ "/") x) = false := by
    have heq : (((env.tempDir ++ "/" ++ env.filename) :: acc.1.files).filter
        (· ≠ env.tempDir ++ "/" ++ env.filename)) =
        acc.1.files.filter (· ≠ env.tempDir ++ "/" ++ env.filename) := by
      simp
    rw [heq, List.any_eq_false]
    intro x hx
    rw [hfresh x (List.mem_of_mem_filter hx)]
    exact Bool.false_ne_true
  unfold directModeRun
  rw [if_neg (by rw [hnr]; exact Bool.false_ne_true)]
  have htl : (match env.contentLength with
      | some cl0 => decide (cl0 ≠ 0 ∧ cl0 > env.maxMB * 1024 * 1024)
      | none => false) = false := by
    rcases hc : env.contentLength with _ | cl
    · rfl
    · simpa using hsz cl hc
  rw [htl, if_neg (fun hx => Bool.false_ne_true hx)]
  refine ⟨rfl, ?_, ?_, ?_, ?_⟩
  · rw [cleanupFileDir_files]
    simp [List.mem_filter]
  · refine cleanupFileDir_dirs_not_mem _ _ _ ?_
    simp only [logUpdate_files, directChunkFold_files]
    exact hany
  · rw [cleanupFileDir_progress, logUpdate_progress]
    exact lookup_setKey ..
  · rw [cleanupFileDir_tasks, logUpdate_tasks]
    dsimp only
    exact mark_after_register ..

/-- A raising yt-dlp run makes the delegated tail answer 500 with the
progress entry cleared. -/
theorem ytdlpModeRun_raises (env : PDEnv) (acc : SrvState × List Snap)
    (h : env.ytdlp = none) :
    (ytdlpModeRun env acc).1 = PDResult.downloadFailed500 ∧
    (ytdlpModeRun env acc).2.1.progress.lookup env.session_id = none := by
  unfold ytdlpModeRun
  rw [h]
  exact ⟨rfl, lookup_eraseKey ..⟩

/-- The delegated yt-dlp tail on the success path: file, directory AND
the Progress Store entry are cleaned up after streaming; the Task Record
is left in "streaming" with whatever storage path it already carried
(none is ever registered in this mode). -/
theorem ytdlpModeRun_final (env : PDEnv) (acc : SrvState × List Snap)
    (run : YtdlpRun) (hrun : env.ytdlp = some run)
    (hfresh : ∀ f ∈ acc.1.files, startsWithStr (env.tempDir ++ "/") f = false)
    (sp : Option String) (hsp : taskStorage env.session_id acc.1.tasks = sp) :
    (ytdlpModeRun env acc).1 = PDResult.streamFile ∧
    run.outFile ∉ (ytdlpModeRun env acc).2.1.files ∧
    env.tempDir ∉ (ytdlpModeRun env acc).2.1.dirs ∧
    (ytdlpModeRun env acc).2.1.progress.lookup env.session_id = none ∧
    ∃ t, (ytdlpModeRun env acc).2.1.tasks.lookup env.session_id = some t ∧
      t.status = some "streaming" ∧
      t.storage_path = sp := by
  have hany : ((run.outFile :: acc.1.files).filter (· ≠ run.outFile)).any
      (fun x => startsWithStr (env.tempDir ++ "/") x) = false := by
    have heq : ((run.outFile :: acc.1.files).filter (· ≠ run.outFile)) =
        acc.1.files.filter (· ≠ run.outFile) := by
      simp
    rw [heq, List.any_eq_false]
    intro x hx
    rw [hfresh x (List.mem_of_mem_filter hx)]
    exact Bool.false_ne_true
  unfold ytdlpModeRun
  rw [hrun]
  refine ⟨rfl, ?_, ?_, ?_, ?_⟩
  · rw [ytdlpStreamCleanup_files]
    simp [List.mem_filter]
  · refine ytdlpStreamCleanup_dirs_not_mem _ _ _ _ ?_
    simp only [logUpdate_files, hook_fold_files]
    exact hany
  · refine ytdlpStreamCleanup_progress_none _ _ _ _ ?_
    simp only [logUpdate_files, hook_fold_files]
    exact hany
  · rw [ytdlpStreamCleanup_tasks, logUpdate_tasks]
    dsimp only
    refine mark_status_lookup_storage _ _ _ _ _ ?_
    rw [← hsp]
    simp only [taskStorage_hook_fold]
    rw [logUpdate_tasks]
    dsimp only
    exact taskStorage_svc_mark_status ..

/-- `force_download` deletes the session entry exactly on the streaming
responses; every failure response leaves the registry untouched. -/
theorem force_download_registry (env : FDEnv)
    (reg : List (String × SessionInfo)) (sid : String) :
    (force_download env reg sid).2 =
      if (force_download env reg sid).1.isStream then eraseKey sid reg
      else reg := by
  unfold force_download
  rcases h : reg.lookup sid with _ | info
  · rfl
  · simp only
    (repeat' split) <;> simp_all [FDResult.isStream]

/-- A missing session id yields the 404 immediately. -/
theorem force_download_notFound (env : FDEnv)
    (reg : List (String × SessionInfo)) (sid : String)
    (h : reg.lookup sid = none) :
    force_download env reg sid = (FDResult.notFound404, reg) := by
  unfold force_download
  rw [h]

end DL

/-- C3: the Safety Gate is claimed to fail closed — a URL whose hostname
resolution raises should make `is_safe_public_url` return false.  The code
instead returns TRUE: `_host_is_private` swallows the resolution error and
answers "not private", so the gate fails open (no exception is propagated,
but the boolean is the opposite of the specified one). -/
theorem c3_fails_open :
    DL.is_safe_public_url (fun _ => DL.DNS.failure)
      "http://unresolvable.example/file.mp4" none = true := by
  decide

namespace DL

/-- A registry holding one session whose direct URL points at the
loopback address, so the Safety Gate rejects the first request. -/
def c1Reg : List (String × SessionInfo) :=
  [("1700000000000",
    { video_url := some "https://x.com/watch",
      direct_url := some "http://127.0.0.1/x",
      format_id := some "best", filename := "clip.mp4",
      platform := "instagram" })]

/-- DNS oracle: the loopback literal resolves to a private address,
everything else to a public one. -/
def c1Env : FDEnv :=
  { resolve := fun h =>
      if h = "127.0.0.1" then DNS.resolved true else DNS.resolved false }

/-- A registry with a safe, public direct URL that streams successfully. -/
def c1OkReg : List (String × SessionInfo) :=
  [("s1",
    { video_url := some "https://x.com/watch",
      direct_url := some "https://cdn.example.com/v.mp4",
      format_id := some "best", filename := "clip.mp4",
      platform := "instagram" })]

/-- DNS oracle resolving every host to a public address. -/
def pubEnv : FDEnv := { resolve := fun _ => DNS.resolved false }

end DL

/-- C1 counterexample: the claim says the registry entry is deleted as soon
as the engine begins consuming it, so after ANY first
GET /api/force-download/<id> — regardless of outcome — a second request
gets 404.  In the code the `del` only happens on the streaming paths: a
first request that fails the Safety Gate (400) leaves the session in the
registry, and the second request repeats the 400 instead of a 404. -/
theorem c1_counterexample :
    (DL.force_download DL.c1Env DL.c1Reg "1700000000000").1 =
      DL.FDResult.unsafe400 ∧
    (DL.force_download DL.c1Env
        (DL.force_download DL.c1Env DL.c1Reg "1700000000000").2
        "1700000000000").1 ≠ DL.FDResult.notFound404 := by
  refine ⟨by decide, by decide⟩

/-- C1 amended: the session entry is deleted exactly when the request
reaches the streaming response (direct stream or yt-dlp file stream);
after such a first request every subsequent request with the same id gets
the 404, while after a failed first request the registry — and hence the
behaviour of a retry — is unchanged; a request for an unknown id always
gets the 404. -/
theorem c1_amended (env : DL.FDEnv) (reg : List (String × DL.SessionInfo))
    (sid : String) :
    ((DL.force_download env reg sid).1.isStream = true →
      (DL.force_download env reg sid).2 = DL.eraseKey sid reg ∧
      ∀ env2, (DL.force_download env2 (DL.force_download env reg sid).2 sid).1 =
        DL.FDResult.notFound404) ∧
    ((DL.force_download env reg sid).1.isStream = false →
      (DL.force_download env reg sid).2 = reg) ∧
    (reg.lookup sid = none →
      DL.force_download env reg sid = (DL.FDResult.notFound404, reg)) := by
  refine ⟨fun hs => ?_, fun hs => ?_, fun h => DL.force_download_notFound env reg sid h⟩
  · have h2 := DL.force_download_registry env reg sid
    rw [hs] at h2
    simp only [if_true] at h2
    refine ⟨h2, fun env2 => ?_⟩
    rw [h2, DL.force_download_notFound env2 (DL.eraseKey sid reg) sid
      (DL.lookup_eraseKey sid reg)]
  · have h2 := DL.force_download_registry env reg sid
    rw [hs] at h2
    simpa using h2

/-- Witness for C1 amended: a safe public session streams on the first
request and the second request receives the 404. -/
theorem c1_amended_witness :
    (DL.force_download DL.pubEnv DL.c1OkReg "s1").1.isStream = true ∧
    (DL.force_download DL.pubEnv
        (DL.force_download DL.pubEnv DL.c1OkReg "s1").2 "s1").1 =
      DL.FDResult.notFound404 := by
  refine ⟨by decide, ?_⟩
  exact ((c1_amended DL.pubEnv DL.c1OkReg "s1").1 (by decide)).2 DL.pubEnv

namespace DL

/-- A proxy-download request whose direct URL points into a private
network, so the Safety Gate check (which runs only after the Task Record
and the starting snapshot were created) rejects it. -/
def c7Env : PDEnv :=
  { video_url := some "https://www.instagram.com/p/abc/",
    direct_url := some "http://10.0.0.5/x.mp4",
    platform := "instagram", session_id := "sess7",
    resolve := fun h =>
      if h = "10.0.0.5" then DNS.resolved true else DNS.resolved false }

end DL

/-- C7 counterexample: the claim says every download request failing
validation gets a 4xx AND creates no state.  A proxy-download request
with an unsafe (private-network) direct URL is answered 400 — but the
unsafe-host check runs after the Task Record upsert and after the
"starting" Progress Snapshot, so both pieces of state exist and are left
behind. -/
theorem c7_counterexample :
    (DL.proxy_download DL.c7Env {}).1 = DL.PDResult.unsafe400 ∧
    ((DL.proxy_download DL.c7Env {}).2.1.progress.lookup "sess7").isSome = true ∧
    ((DL.proxy_download DL.c7Env {}).2.1.tasks.lookup "sess7").isSome = true := by
  refine ⟨by decide, by decide, by decide⟩

/-- C7 amended: for proxy-download requests, the missing-URL validation
responds 400 immediately and creates no state at all; the
disallowed/unsafe-host validation also responds 400, but only after the
Task Record and the "starting" Progress Store entry have been created,
and both are left in place. -/
theorem c7_amended (env : DL.PDEnv) (st : DL.SrvState) :
    (¬ (DL.strTruthy env.video_url ∨ DL.strTruthy env.direct_url) →
      DL.proxy_download env st = (DL.PDResult.missingUrl400, st, [])) ∧
    ((DL.strTruthy env.video_url ∨ DL.strTruthy env.direct_url) →
     (DL.strTruthy env.direct_url ∧
        (env.platform = "instagram" ∨ env.platform = "bilibili_tv")) →
     DL.is_safe_public_url env.resolve (env.direct_url.getD "") none = false →
      (DL.proxy_download env st).1 = DL.PDResult.unsafe400 ∧
      (DL.proxy_download env st).2.1.progress.lookup env.session_id =
        some { status := "starting", message := "Memulai download...",
               percent := some 0 } ∧
      ((DL.proxy_download env st).2.1.tasks.lookup env.session_id).isSome = true) := by
  constructor
  · intro h
    unfold DL.proxy_download
    rw [if_pos h]
  · intro h1 h2 h3
    have hcond : ¬¬(DL.strTruthy env.video_url = true ∨ DL.strTruthy env.direct_url = true) :=
      not_not_intro h1
    have hsafe : ¬ (DL.is_safe_public_url env.resolve (env.direct_url.getD "") none = true) := by
      simp [h3]
    unfold DL.proxy_download
    rw [if_neg hcond, if_pos h2, if_pos hsafe]
    refine ⟨rfl, DL.lookup_setKey .., ?_⟩
    obtain ⟨t, ht, -, -⟩ := DL.lookup_svc_mark_status env.session_id "starting"
      "Memulai download..." (DL.svc_upsert env.session_id st.tasks)
    simp only [DL.logUpdate, DL.update_progress]
    rw [ht]
    rfl


namespace DL

/-- A proxy-download request with neither a video URL nor a direct URL. -/
def c7MissEnv : PDEnv := { session_id := "sess7m" }

end DL

/-- Witness for C7 amended: a URL-less request is rejected with no state
created, and the unsafe-host request from the counterexample leaves the
starting snapshot behind. -/
theorem c7_amended_witness :
    DL.proxy_download DL.c7MissEnv {} = (DL.PDResult.missingUrl400, {}, []) ∧
    (DL.proxy_download DL.c7Env {}).2.1.progress.lookup "sess7" =
      some { status := "starting", message := "Memulai download...",
             percent := some 0 } := by
  refine ⟨(c7_amended DL.c7MissEnv {}).1 (by decide), ?_⟩
  exact ((c7_amended DL.c7Env {}).2 (by decide) (by decide) (by decide)).2.1

/-- C8: a Content-Length above the configured maximum
(MAX_DOWNLOAD_SIZE_MB converted to bytes) makes both download endpoints
answer the distinct 413 before the body is written: force_download leaves
the registry untouched (its direct mode never creates a temp file), and
proxy_download returns before `open(temp_file, 'wb')`, so the temp file
does not exist afterwards. -/
theorem c8_size_ceiling (envF : DL.FDEnv) (reg : List (String × DL.SessionInfo))
    (sid : String) (info : DL.SessionInfo) (envP : DL.PDEnv) (st : DL.SrvState)
    (cl clP : ℕ)
    (hl : reg.lookup sid = some info)
    (hhttp : DL.startsWithStr "http"
      ((if info.platform = "bilibili_tv" ∧ DL.strTruthy info.video_url then
          DL.refreshDirectUrl envF.freshFormats info.format_id info.direct_url
        else info.direct_url).getD "") = true)
    (hsafe : DL.is_safe_public_url envF.resolve
      ((if info.platform = "bilibili_tv" ∧ DL.strTruthy info.video_url then
          DL.refreshDirectUrl envF.freshFormats info.format_id info.direct_url
        else info.direct_url).getD "") none = true)
    (hcl : envF.contentLength = some cl)
    (hbig : cl > envF.maxMB * 1024 * 1024)
    (hP1 : DL.strTruthy envP.video_url = true ∨ DL.strTruthy envP.direct_url = true)
    (hP2 : DL.strTruthy envP.direct_url = true ∧
      (envP.platform = "instagram" ∨ envP.platform = "bilibili_tv"))
    (hPsafe : DL.is_safe_public_url envP.resolve (envP.direct_url.getD "") none = true)
    (hPnoraise : envP.fetchRaises = false)
    (hPcl : envP.contentLength = some clP)
    (hPbig : clP > envP.maxMB * 1024 * 1024)
    (hfresh : (envP.tempDir ++ "/" ++ envP.filename) ∉ st.files) :
    DL.force_download envF reg sid = (DL.FDResult.tooLarge413, reg) ∧
    (DL.proxy_download envP st).1 = DL.PDResult.tooLarge413 ∧
    (envP.tempDir ++ "/" ++ envP.filename) ∉ (DL.proxy_download envP st).2.1.files := by
  have hne : cl ≠ 0 := Nat.pos_iff_ne_zero.mp (lt_of_le_of_lt (Nat.zero_le _) hbig)
  have hPne : clP ≠ 0 := Nat.pos_iff_ne_zero.mp (lt_of_le_of_lt (Nat.zero_le _) hPbig)
  refine ⟨?_, ?_⟩
  · unfold DL.force_download
    rw [hl]
    simp only [hcl, hhttp, hsafe]
    simp [hne, hbig]
  · have hcond : ¬¬(DL.strTruthy envP.video_url = true ∨ DL.strTruthy envP.direct_url = true) :=
      not_not_intro hP1
    have hsafe' : ¬¬(DL.is_safe_public_url envP.resolve (envP.direct_url.getD "") none = true) :=
      not_not_intro hPsafe
    unfold DL.proxy_download
    rw [if_neg hcond, if_pos hP2, if_neg hsafe']
    refine ⟨(DL.directModeRun_tooLarge envP _ hPnoraise clP hPcl hPbig).1, ?_⟩
    rw [(DL.directModeRun_tooLarge envP _ hPnoraise clP hPcl hPbig).2]
    by_cases hb : envP.platform = "bilibili_tv"
    · simpa [hb, DL.logUpdate, DL.update_progress] using hfresh
    · simpa [hb, DL.logUpdate, DL.update_progress] using hfresh

namespace DL

/-- A force-download environment whose upstream advertises 600 MB against
the default 500 MB ceiling. -/
def c8FEnv : FDEnv :=
  { resolve := fun _ => DNS.resolved false,
    contentLength := some 600000000 }

def c8FReg : List (String × SessionInfo) :=
  [("s8",
    { video_url := some "https://x.com/watch",
      direct_url := some "https://cdn.example.com/v.mp4",
      format_id := some "best", filename := "v.mp4",
      platform := "generic" })]

/-- A proxy-download request whose upstream advertises 600 MB. -/
def c8PEnv : PDEnv :=
  { video_url := some "https://www.instagram.com/p/x/",
    direct_url := some "https://scontent.cdninstagram.com/v/a.mp4",
    platform := "instagram", session_id := "sess8",
    contentLength := some 600000000,
    tempDir := "/tmp/d8", filename := "a.mp4" }

end DL

/-- Witness for C8: a 600 MB Content-Length against the default 500 MB
ceiling yields the 413 on both endpoints and no temp file exists. -/
theorem c8_size_ceiling_witness :
    DL.force_download DL.c8FEnv DL.c8FReg "s8" = (DL.FDResult.tooLarge413, DL.c8FReg) ∧
    (DL.proxy_download DL.c8PEnv {}).1 = DL.PDResult.tooLarge413 ∧
    ("/tmp/d8/a.mp4" : String) ∉ (DL.proxy_download DL.c8PEnv {}).2.1.files := by
  have h := c8_size_ceiling DL.c8FEnv DL.c8FReg "s8"
    { video_url := some "https://x.com/watch",
      direct_url := some "https://cdn.example.com/v.mp4",
      format_id := some "best", filename := "v.mp4",
      platform := "generic" }
    DL.c8PEnv {} 600000000 600000000
    (by decide) (by decide) (by decide) (by decide) (by decide)
    (by decide) (by decide) (by decide) (by decide) (by decide)
    (by decide) (by decide)
  exact h

namespace DL

/-- A proxy-download direct-mode request whose upstream answers HTTP 404;
the body of the error page arrives as one 64-byte chunk. -/
def c6Env : PDEnv :=
  { video_url := some "https://www.instagram.com/p/z/",
    direct_url := some "https://scontent.cdninstagram.com/v/z.mp4",
    platform := "instagram", session_id := "sess6",
    upstreamStatus := 404, contentLength := some 64, chunks := [64],
    tempDir := "/tmp/d6", filename := "z.mp4" }

end DL

/-- C6 counterexample: the claim says every non-200 upstream fetch in the
download pipeline aborts with a download-failure response and clears the
session's Progress Store entry.  proxy_download's direct mode never
consults response.status_code: with the upstream answering 404 it writes
the error body to the temp file, streams it to the client as the normal
download response, and the Progress Store entry is still present
afterwards. -/
theorem c6_counterexample :
    DL.c6Env.upstreamStatus = 404 ∧
    (DL.proxy_download DL.c6Env {}).1 = DL.PDResult.streamDirect ∧
    ((DL.proxy_download DL.c6Env {}).2.1.progress.lookup "sess6").isSome = true := by
  refine ⟨rfl, by decide, by decide⟩

/-- C6 amended: only force_download's direct mode checks the upstream
status, aborting on non-200 with a response naming that status and the
registry (and filesystem — that mode never creates a temp file) untouched;
proxy_download's direct mode performs no status check and streams the body
regardless of the status; a network failure (requests.get raising) in
proxy_download is caught by the top-level handler, which answers 500 and
does remove the Progress Store entry. -/
theorem c6_amended (envF : DL.FDEnv) (reg : List (String × DL.SessionInfo))
    (sid : String) (info : DL.SessionInfo) (envP envQ : DL.PDEnv)
    (st stQ : DL.SrvState)
    (hl : reg.lookup sid = some info)
    (hhttp : DL.startsWithStr "http"
      ((if info.platform = "bilibili_tv" ∧ DL.strTruthy info.video_url then
          DL.refreshDirectUrl envF.freshFormats info.format_id info.direct_url
        else info.direct_url).getD "") = true)
    (hsafe : DL.is_safe_public_url envF.resolve
      ((if info.platform = "bilibili_tv" ∧ DL.strTruthy info.video_url then
          DL.refreshDirectUrl envF.freshFormats info.format_id info.direct_url
        else info.direct_url).getD "") none = true)
    (hsz : ∀ cl, envF.contentLength = some cl →
      ¬(cl ≠ 0 ∧ cl > envF.maxMB * 1024 * 1024))
    (hst : envF.upstreamStatus ≠ 200)
    (hP1 : DL.strTruthy envP.video_url = true ∨ DL.strTruthy envP.direct_url = true)
    (hP2 : DL.strTruthy envP.direct_url = true ∧
      (envP.platform = "instagram" ∨ envP.platform = "bilibili_tv"))
    (hPsafe : DL.is_safe_public_url envP.resolve (envP.direct_url.getD "") none = true)
    (hPraise : envP.fetchRaises = true)
    (hQ1 : DL.strTruthy envQ.video_url = true ∨ DL.strTruthy envQ.direct_url = true)
    (hQ2 : DL.strTruthy envQ.direct_url = true ∧
      (envQ.platform = "instagram" ∨ envQ.platform = "bilibili_tv"))
    (hQsafe : DL.is_safe_public_url envQ.resolve (envQ.direct_url.getD "") none = true)
    (hQnoraise : envQ.fetchRaises = false)
    (hQsz : ∀ cl, envQ.contentLength = some cl →
      ¬(cl ≠ 0 ∧ cl > envQ.maxMB * 1024 * 1024)) :
    DL.force_download envF reg sid =
      (DL.FDResult.upstreamFail envF.upstreamStatus, reg) ∧
    ((DL.proxy_download envP st).1 = DL.PDResult.downloadFailed500 ∧
      (DL.proxy_download envP st).2.1.progress.lookup envP.session_id = none) ∧
    (DL.proxy_download envQ stQ).1 = DL.PDResult.streamDirect := by
  refine ⟨?_, ?_, ?_⟩
  · unfold DL.force_download
    rw [hl]
    simp only [hhttp, hsafe]
    rcases hc : envF.contentLength with _ | cl
    · simp [hc, hst]
    · have h2 := hsz cl hc
      rcases not_and_or.mp h2 with h | h
      · simp [hc, not_not.mp h, hst]
      · simp [hc, h, hst]
  · have hcond : ¬¬(DL.strTruthy envP.video_url = true ∨ DL.strTruthy envP.direct_url = true) :=
      not_not_intro hP1
    have hsafe' : ¬¬(DL.is_safe_public_url envP.resolve (envP.direct_url.getD "") none = true) :=
      not_not_intro hPsafe
    unfold DL.proxy_download
    rw [if_neg hcond, if_pos hP2, if_neg hsafe']
    exact DL.directModeRun_raises envP _ hPraise
  · have hcond : ¬¬(DL.strTruthy envQ.video_url = true ∨ DL.strTruthy envQ.direct_url = true) :=
      not_not_intro hQ1
    have hsafe' : ¬¬(DL.is_safe_public_url envQ.resolve (envQ.direct_url.getD "") none = true) :=
      not_not_intro hQsafe
    unfold DL.proxy_download
    rw [if_neg hcond, if_pos hQ2, if_neg hsafe']
    exact DL.directModeRun_stream envQ _ hQnoraise hQsz

namespace DL

/-- A force-download session whose safe upstream answers HTTP 503. -/
def c6FEnv : FDEnv :=
  { resolve := fun _ => DNS.resolved false, upstreamStatus := 503 }

def c6FReg : List (String × SessionInfo) :=
  [("s6",
    { video_url := some "https://x.com/watch",
      direct_url := some "https://cdn.example.com/v.mp4",
      format_id := some "best", filename := "v.mp4",
      platform := "generic" })]

/-- A proxy-download request whose network fetch raises. -/
def c6PEnv : PDEnv :=
  { video_url := some "https://www.instagram.com/p/y/",
    direct_url := some "https://scontent.cdninstagram.com/v/y.mp4",
    platform := "instagram", session_id := "sess6b",
    fetchRaises := true, tempDir := "/tmp/d6b", filename := "y.mp4" }

end DL

/-- Witness for C6 amended: a 503 upstream aborts force_download with the
status-bearing failure; a raising fetch in proxy_download yields the 500
with the progress entry cleared; and the 404-upstream request from the
counterexample still streams. -/
theorem c6_amended_witness :
    DL.force_download DL.c6FEnv DL.c6FReg "s6" =
      (DL.FDResult.upstreamFail 503, DL.c6FReg) ∧
    ((DL.proxy_download DL.c6PEnv {}).1 = DL.PDResult.downloadFailed500 ∧
      (DL.proxy_download DL.c6PEnv {}).2.1.progress.lookup "sess6b" = none) ∧
    (DL.proxy_download DL.c6Env {}).1 = DL.PDResult.streamDirect := by
  have h := c6_amended DL.c6FEnv DL.c6FReg "s6"
    { video_url := some "https://x.com/watch",
      direct_url := some "https://cdn.example.com/v.mp4",
      format_id := some "best", filename := "v.mp4",
      platform := "generic" }
    DL.c6PEnv DL.c6Env {} {}
    (by decide) (by decide) (by decide)
    (fun cl hc => by simp [DL.c6FEnv] at hc) (by decide)
    (by decide) (by decide) (by decide) (by decide)
    (by decide) (by decide) (by decide) (by decide)
    (fun cl hc => by
      have h64 : cl = 64 := by simpa [DL.c6Env] using hc.symm
      subst h64
      decide)
  exact h

namespace DL

/-- A proxy-download direct-mode request that completes: a 128-byte body
arrives in two 64-byte chunks and is streamed out. -/
def c2Env : PDEnv :=
  { video_url := some "https://www.instagram.com/p/c2/",
    direct_url := some "https://scontent.cdninstagram.com/v/c2.mp4",
    platform := "instagram", session_id := "sess2",
    contentLength := some 128, chunks := [64, 64],
    tempDir := "/tmp/d2", filename := "c2.mp4" }

end DL

/-- C2 counterexample: the claim says that after the response body has
been streamed, the temp file and directory are gone, the Progress Store
no longer contains the session id, and the Task Record is completed with
storage_path cleared.  For a completed direct-mode download the temp file
and directory are indeed gone, but the Progress Store entry is still
there (the direct-mode generator's finally removes only file and
directory), and the Task Record still says "streaming" with storage_path
pointing at the now-deleted temp file. -/
theorem c2_counterexample :
    (DL.proxy_download DL.c2Env {}).1 = DL.PDResult.streamDirect ∧
    ("/tmp/d2/c2.mp4" : String) ∉ (DL.proxy_download DL.c2Env {}).2.1.files ∧
    ("/tmp/d2" : String) ∉ (DL.proxy_download DL.c2Env {}).2.1.dirs ∧
    ((DL.proxy_download DL.c2Env {}).2.1.progress.lookup "sess2").isSome = true ∧
    (DL.proxy_download DL.c2Env {}).2.1.tasks.lookup "sess2" =
      some { status := some "streaming",
             message := some "Mengirim file ke browser...",
             storage_path := some "/tmp/d2/c2.mp4",
             file_size := some 128 } := by
  refine ⟨by decide, by decide, by decide, by decide, by decide⟩


/-- C2 amended: after the response body has been streamed (or the client
disconnected), both modes remove the temp file and the temp directory;
the yt-dlp mode also removes the Progress Store entry, but the direct
mode leaves it in place (the Publisher then only stops at its timeout
ceiling); and in neither mode is the Task Record marked completed or its
storage_path cleared — it is left with status "streaming", the direct
mode keeping storage_path pointed at the now-deleted temp file (the
record is reclaimed later by the Retention Sweeper). -/
theorem c2_amended (envD envY : DL.PDEnv) (st stY : DL.SrvState) (run : DL.YtdlpRun)
    (hD1 : DL.strTruthy envD.video_url = true ∨ DL.strTruthy envD.direct_url = true)
    (hD2 : DL.strTruthy envD.direct_url = true ∧
      (envD.platform = "instagram" ∨ envD.platform = "bilibili_tv"))
    (hDsafe : DL.is_safe_public_url envD.resolve (envD.direct_url.getD "") none = true)
    (hDnr : envD.fetchRaises = false)
    (hDsz : ∀ cl, envD.contentLength = some cl →
      ¬(cl ≠ 0 ∧ cl > envD.maxMB * 1024 * 1024))
    (hDfresh : ∀ f ∈ st.files, DL.startsWithStr (envD.tempDir ++ "/") f = false)
    (hY1 : DL.strTruthy envY.video_url = true ∨ DL.strTruthy envY.direct_url = true)
    (hY2 : ¬(DL.strTruthy envY.direct_url = true ∧
      (envY.platform = "instagram" ∨ envY.platform = "bilibili_tv")))
    (hYrun : envY.ytdlp = some run)
    (hYfresh : ∀ f ∈ stY.files, DL.startsWithStr (envY.tempDir ++ "/") f = false) :
    ((DL.proxy_download envD st).1 = DL.PDResult.streamDirect ∧
     (envD.tempDir ++ "/" ++ envD.filename) ∉ (DL.proxy_download envD st).2.1.files ∧
     envD.tempDir ∉ (DL.proxy_download envD st).2.1.dirs ∧
     (DL.proxy_download envD st).2.1.progress.lookup envD.session_id =
       some { status := "streaming", message := "Mengirim file ke browser...",
              percent := some 100 } ∧
     (∃ t, (DL.proxy_download envD st).2.1.tasks.lookup envD.session_id = some t ∧
       t.status = some "streaming" ∧
       t.storage_path = some (envD.tempDir ++ "/" ++ envD.filename))) ∧
    ((DL.proxy_download envY stY).1 = DL.PDResult.streamFile ∧
     run.outFile ∉ (DL.proxy_download envY stY).2.1.files ∧
     envY.tempDir ∉ (DL.proxy_download envY stY).2.1.dirs ∧
     (DL.proxy_download envY stY).2.1.progress.lookup envY.session_id = none ∧
     (∃ t, (DL.proxy_download envY stY).2.1.tasks.lookup envY.session_id = some t ∧
       t.status = some "streaming" ∧
       t.storage_path = DL.taskStorage envY.session_id stY.tasks)) := by
  constructor
  · have hcond : ¬¬(DL.strTruthy envD.video_url = true ∨ DL.strTruthy envD.direct_url = true) :=
      not_not_intro hD1
    have hsafe' : ¬¬(DL.is_safe_public_url envD.resolve (envD.direct_url.getD "") none = true) :=
      not_not_intro hDsafe
    unfold DL.proxy_download
    rw [if_neg hcond, if_pos hD2, if_neg hsafe']
    refine DL.directModeRun_final envD _ hDnr hDsz ?_
    by_cases hb : envD.platform = "bilibili_tv"
    · simp only [hb, if_true, DL.logUpdate_files]
      exact hDfresh
    · simp only [hb, if_false, DL.logUpdate_files]
      exact hDfresh
  · have hcond : ¬¬(DL.strTruthy envY.video_url = true ∨ DL.strTruthy envY.direct_url = true) :=
      not_not_intro hY1
    unfold DL.proxy_download
    rw [if_neg hcond, if_neg hY2]
    refine DL.ytdlpModeRun_final envY _ run hYrun ?_ _ ?_
    · simp only [DL.logUpdate_files]
      exact hYfresh
    · simp only [DL.logUpdate_tasks]
      rw [DL.taskStorage_svc_mark_status]
      exact DL.taskStorage_svc_upsert ..

namespace DL

/-- A delegated-mode proxy-download request whose yt-dlp run succeeds. -/
def c2YEnv : PDEnv :=
  { video_url := some "https://www.youtube.com/watch?v=c2",
    platform := "youtube", session_id := "sess2y", tempDir := "/tmp/d2y",
    ytdlp := some { events := [], outFile := "/tmp/d2y/video.mp4",
                    fileSize := 256 } }

end DL

/-- Witness for C2 amended: a completed direct-mode download streams and
keeps its Progress Store entry, while a completed yt-dlp download streams
and has its entry removed. -/
theorem c2_amended_witness :
    (DL.proxy_download DL.c2Env {}).1 = DL.PDResult.streamDirect ∧
    (DL.proxy_download DL.c2YEnv {}).1 = DL.PDResult.streamFile ∧
    (DL.proxy_download DL.c2YEnv {}).2.1.progress.lookup "sess2y" = none ∧
    (DL.proxy_download DL.c2Env {}).2.1.progress.lookup "sess2" =
      some { status := "streaming", message := "Mengirim file ke browser...",
             percent := some 100 } := by
  have H := c2_amended DL.c2Env DL.c2YEnv {} {}
    { events := [], outFile := "/tmp/d2y/video.mp4", fileSize := 256 }
    (by decide) (by decide) (by decide) (by decide)
    (fun cl hc => by
      have h : cl = 128 := by simpa [DL.c2Env] using hc.symm
      subst h
      decide)
    (by intro f hf; simp at hf)
    (by decide) (by decide) rfl
    (by intro f hf; simp at hf)
  exact ⟨H.1.1, H.2.1, H.2.2.2.2.1, H.1.2.2.2.1⟩

namespace DL

/-- `round1` is monotone (rounding to one decimal preserves order). -/
theorem round1_mono {a b : ℚ} (h : a ≤ b) : round1 a ≤ round1 b := by
  unfold round1
  have h2 : round (10 * a) ≤ round (10 * b) := by
    rw [round_eq, round_eq]
    exact Int.floor_mono (by linarith)
  have h3 : ((round (10 * a) : ℤ) : ℚ) ≤ ((round (10 * b) : ℤ) : ℚ) := by
    exact_mod_cast h2
  linarith

theorem round1_nonneg {a : ℚ} (h : 0 ≤ a) : 0 ≤ round1 a := by
  have h0 : round1 0 = 0 := by
    unfold round1
    norm_num
  calc (0:ℚ) = round1 0 := h0.symm
    _ ≤ round1 a := round1_mono h

theorem round1_le_100 {a : ℚ} (h : a ≤ 100) : round1 a ≤ 100 := by
  have h100 : round1 100 = 100 := by
    unfold round1
    rw [show (10:ℚ) * 100 = ((1000:ℤ):ℚ) by norm_num, round_intCast]
    norm_num
  exact (round1_mono h).trans_eq h100

/-- The snapshots the chunk loop writes, read off `directChunkFold`:
one per truthy chunk when a total size is known, at the rounded running
percentage. -/
def chunkSnaps (sid : String) (total : ℕ) : List ℕ → ℕ → List Snap
  | [], _ => []
  | c :: rest, d =>
    if c ≠ 0 then
      (if total ≠ 0 then
        [{ status := "downloading", message := "Downloading video...",
           percent := some (round1 (((d + c : ℕ) : ℚ) * 100 / (total : ℚ))),
           downloaded := some (d + c), total := some total }]
       else []) ++ chunkSnaps sid total rest (d + c)
    else chunkSnaps sid total rest d

/-- The chunk loop appends exactly `chunkSnaps` to the trace. -/
theorem directChunkFold_log (sid : String) (total : ℕ) :
    ∀ (chunks : List ℕ) (d : ℕ) (acc : SrvState × List Snap),
      (directChunkFold sid total chunks d acc).2 =
        acc.2 ++ chunkSnaps sid total chunks d := by
  intro chunks
  induction chunks with
  | nil => intro d acc; simp [directChunkFold, chunkSnaps]
  | cons c rest ih =>
    intro d acc
    unfold directChunkFold chunkSnaps
    by_cases hc : c ≠ 0
    · rw [if_pos hc, if_pos hc]
      by_cases ht : total ≠ 0
      · rw [if_pos ht, if_pos ht, ih]
        simp [logUpdate]
      · rw [if_neg ht, if_neg ht, ih]
        simp
    · rw [if_neg hc, if_neg hc]
      exact ih d acc

/-- Every chunk snapshot has status "downloading" and percent
`round1 (k·100/total)` for some running byte count `k` strictly above the
starting offset and at most offset + total chunk bytes. -/
theorem chunkSnaps_mem (sid : String) (total : ℕ) :
    ∀ (chunks : List ℕ) (d : ℕ), ∀ p ∈ chunkSnaps sid total chunks d,
      p.status = "downloading" ∧
      ∃ k : ℕ, d < k ∧ k ≤ d + chunks.sum ∧
        p.percent = some (round1 ((k : ℚ) * 100 / (total : ℚ))) := by
  intro chunks
  induction chunks with
  | nil => intro d p hp; simp [chunkSnaps] at hp
  | cons c rest ih =>
    intro d p hp
    unfold chunkSnaps at hp
    by_cases hc : c ≠ 0
    · rw [if_pos hc] at hp
      by_cases ht : total ≠ 0
      · rw [if_pos ht] at hp
        rcases List.mem_append.mp hp with h | h
        · rcases List.mem_singleton.mp h with rfl
          refine ⟨rfl, d + c, by omega, ?_, rfl⟩
          simp only [List.sum_cons]
          omega
        · obtain ⟨hs, k, hk1, hk2, hk3⟩ := ih (d + c) p h
          refine ⟨hs, k, by omega, ?_, hk3⟩
          simp only [List.sum_cons]
          omega
      · rw [if_neg ht, List.nil_append] at hp
        obtain ⟨hs, k, hk1, hk2, hk3⟩ := ih (d + c) p hp
        refine ⟨hs, k, by omega, ?_, hk3⟩
        simp only [List.sum_cons]
        omega
    · rw [if_neg hc] at hp
      obtain ⟨hs, k, hk1, hk2, hk3⟩ := ih d p hp
      push_neg at hc
      refine ⟨hs, k, hk1, ?_, hk3⟩
      simp only [List.sum_cons, hc]
      omega

/-- The chunk snapshots' percents are non-decreasing. -/
theorem chunkSnaps_chain (sid : String) (total : ℕ) :
    ∀ (chunks : List ℕ) (d : ℕ),
      List.Chain' (fun p q => p.percent.getD 0 ≤ q.percent.getD 0)
        (chunkSnaps sid total chunks d) := by
  intro chunks
  induction chunks with
  | nil => intro d; simp [chunkSnaps]
  | cons c rest ih =>
    intro d
    unfold chunkSnaps
    by_cases hc : c ≠ 0
    · rw [if_pos hc]
      by_cases ht : total ≠ 0
      · rw [if_pos ht]
        simp only [List.singleton_append]
        rw [List.chain'_cons']
        refine ⟨?_, ih (d + c)⟩
        intro q hq
        have hmem : q ∈ chunkSnaps sid total rest (d + c) :=
          List.mem_of_mem_head? hq
        obtain ⟨-, k, hk1, -, hk3⟩ := chunkSnaps_mem sid total rest (d + c) q hmem
        simp only [hk3, Option.getD_some]
        refine round1_mono ?_
        have htpos : (0:ℚ) < (total : ℚ) := by
          exact_mod_cast Nat.pos_of_ne_zero ht
        have hk : ((d + c : ℕ) : ℚ) ≤ (k : ℚ) := by
          exact_mod_cast le_of_lt hk1
        gcongr
      · rw [if_neg ht, List.nil_append]
        exact ih (d + c)
    · rw [if_neg hc]
      exact ih d

/-- A proxy-download direct-mode request for a 10 MB resource that
delivers one 512 KB chunk: the chunk snapshot lands at 5 %, below the
fixed 10 % kickoff snapshot. -/
def c4Env : PDEnv :=
  { video_url := some "https://www.instagram.com/p/c4/",
    direct_url := some "https://scontent.cdninstagram.com/v/c4.mp4",
    platform := "instagram", session_id := "sess4",
    contentLength := some 10485760, chunks := [524288],
    tempDir := "/tmp/d4", filename := "c4.mp4" }

end DL

/-- C4 counterexample: the claim says percent is non-decreasing over the
snapshots written while status = downloading.  The direct mode writes a
kickoff snapshot with status "downloading" and percent fixed at 10 before
the chunk loop; for a 10 MB body whose first chunk is 512 KB the next
"downloading" snapshot is 5 — the percent sequence while downloading is
[10, 5], which decreases. -/
theorem c4_counterexample :
    ((DL.proxy_download DL.c4Env {}).2.2.filter
        (fun p => p.status = "downloading")).map DL.Snap.percent =
      [some 10, some 5] ∧
    ¬ ((10 : ℚ) ≤ 5) := by
  constructor
  · have h5 : DL.round1 ((524288 : ℚ) * 100 / (10485760 : ℚ)) = 5 := by
      have hv : ((524288 : ℚ) * 100 / (10485760 : ℚ)) = 5 := by norm_num
      rw [hv]
      unfold DL.round1
      rw [show (10 : ℚ) * 5 = ((50 : ℤ) : ℚ) by norm_num, round_intCast]
      norm_num
    unfold DL.proxy_download
    rw [if_neg (by decide), if_pos (by decide), if_neg (by decide)]
    unfold DL.directModeRun
    rw [if_neg (by decide)]
    rw [show (match DL.c4Env.contentLength with
        | some cl0 => decide (cl0 ≠ 0 ∧ cl0 > DL.c4Env.maxMB * 1024 * 1024)
        | none => false) = false from by decide]
    rw [if_neg (fun hx => Bool.false_ne_true hx)]
    simp only [DL.logUpdate]
    rw [DL.directChunkFold_log]
    simp [DL.chunkSnaps, DL.c4Env, h5]
  · norm_num

/-- C4 amended: the snapshots the direct-mode chunk loop itself writes
all have status "downloading" with percents that are non-decreasing,
non-negative, and at most 100 whenever the delivered bytes do not exceed
the advertised total; the violation comes only from the fixed 10 %
kickoff snapshot written before the loop (see the counterexample).  The
yt-dlp hook writes percent = round1(downloaded·100/total) against the
reported total, which is non-decreasing whenever downloaded_bytes is
non-decreasing against the same total. -/
theorem c4_amended (sid : String) (total : ℕ) (chunks : List ℕ)
    (acc : DL.SrvState × List DL.Snap) :
    (∀ p ∈ (DL.directChunkFold sid total chunks 0 acc).2.drop acc.2.length,
       p.status = "downloading" ∧
       ∃ q, p.percent = some q ∧ 0 ≤ q ∧ (chunks.sum ≤ total → q ≤ 100)) ∧
    List.Chain' (fun p q => p.percent.getD 0 ≤ q.percent.getD 0)
      ((DL.directChunkFold sid total chunks 0 acc).2.drop acc.2.length) ∧
    (∀ (acc2 : DL.SrvState × List DL.Snap) (t b : ℕ), t ≠ 0 →
      (DL.progress_hook sid acc2
          { hstatus := "downloading", total_bytes := some t,
            downloaded_bytes := some b }).2 =
        acc2.2 ++ [{ status := "downloading",
                     message := "Downloading video...",
                     percent := some (DL.round1 ((b : ℚ) * 100 / (t : ℚ))),
                     downloaded := some b, total := some t }]) ∧
    (∀ t b1 b2 : ℕ, t ≠ 0 → b1 ≤ b2 →
      DL.round1 ((b1 : ℚ) * 100 / (t : ℚ)) ≤ DL.round1 ((b2 : ℚ) * 100 / (t : ℚ))) := by
  rw [DL.directChunkFold_log, List.drop_left]
  refine ⟨?_, DL.chunkSnaps_chain sid total chunks 0, ?_, ?_⟩
  · intro p hp
    obtain ⟨hs, k, hk1, hk2, hk3⟩ := DL.chunkSnaps_mem sid total chunks 0 p hp
    refine ⟨hs, _, hk3, ?_, ?_⟩
    · refine DL.round1_nonneg ?_
      positivity
    · intro hsum
      refine DL.round1_le_100 ?_
      have htpos : (0:ℚ) < (total : ℚ) := by
        have : 0 < total := by omega
        exact_mod_cast this
      rw [div_le_iff₀ htpos]
      have hk : (k : ℚ) ≤ (total : ℚ) := by
        exact_mod_cast by omega
      linarith
  · intro acc2 t b ht
    unfold DL.progress_hook
    rw [if_pos rfl]
    simp [ht, DL.logUpdate]
  · intro t b1 b2 ht hb
    have htpos : (0:ℚ) < (t : ℚ) := by
      exact_mod_cast Nat.pos_of_ne_zero ht
    refine DL.round1_mono ?_
    have hb' : (b1 : ℚ) ≤ (b2 : ℚ) := by exact_mod_cast hb
    gcongr

/-- Witness for C4 amended: a 128-byte total arriving in two 64-byte
chunks yields chunk snapshots whose percents form a non-decreasing chain,
and the hook percent for 64/128 is below that for 128/128. -/
theorem c4_amended_witness :
    List.Chain' (fun p q => p.percent.getD 0 ≤ q.percent.getD 0)
      ((DL.directChunkFold "w4" 128 [64, 64] 0 ({}, [])).2.drop 0) ∧
    DL.round1 ((64 : ℚ) * 100 / (128 : ℚ)) ≤ DL.round1 ((128 : ℚ) * 100 / (128 : ℚ)) := by
  have H := c4_amended "w4" 128 [64, 64] ({}, [])
  exact ⟨H.2.1, H.2.2.2 128 64 128 (by decide) (by decide)⟩

namespace DL

/-- An event pushed on the SSE channel by the Progress Publisher. -/
inductive PubEvent
  | data (s : Snap)
  | timeout
deriving DecidableEq

/-- The Progress Publisher's generate loop (src/app.py:1592-1626), one
recursion step per 0.3 s poll tick.  `store tick` is the value of
`download_progress.get(session_id)` at that tick.  The Python loop runs
`while timeout < max_timeout` with `timeout += 0.3` and `max_timeout =
180`, i.e. exactly 600 ticks in exact arithmetic (float accumulation can
shift this by one tick, which none of the statements depends on); the
loop body contains NO break — when the entry disappears it just keeps
polling ("Session not found yet, wait"), and a 'streaming' status is an
explicit no-op.  The loop therefore only ever exits with timeout ≥
max_timeout, and the final `if timeout >= max_timeout` always fires,
yielding exactly one terminal timeout event. -/
def pubLoop (store : ℕ → Option Snap) : ℕ → ℕ → Option Snap → List PubEvent
  | 0, _, _ => [PubEvent.timeout]
  | fuel + 1, tick, last =>
    match store tick with
    | some cur =>
      -- send only if the snapshot differs from the last one sent
      if some cur ≠ last then
        PubEvent.data cur :: pubLoop store fuel (tick + 1) (some cur)
      else pubLoop store fuel (tick + 1) last
    | none => pubLoop store fuel (tick + 1) last

/-- One full GET /api/download-progress/<session_id> stream: 600 poll
ticks (180 s at 0.3 s), then the terminal timeout event. -/
def publisherEvents (store : ℕ → Option Snap) : List PubEvent :=
  pubLoop store 600 0 none

/-- Every run of the loop ends with exactly one timeout event, at the
very end. -/
theorem pubLoop_structure (store : ℕ → Option Snap) :
    ∀ (fuel tick : ℕ) (last : Option Snap),
      ∃ es, pubLoop store fuel tick last = es ++ [PubEvent.timeout] ∧
        ∀ e ∈ es, e ≠ PubEvent.timeout := by
  intro fuel
  induction fuel with
  | zero =>
    intro tick last
    exact ⟨[], rfl, by simp⟩
  | succ n ih =>
    intro tick last
    unfold pubLoop
    cases hs : store tick with
    | some cur =>
      dsimp only
      by_cases hne : some cur ≠ last
      · rw [if_pos hne]
        obtain ⟨es, he, hmem⟩ := ih (tick + 1) (some cur)
        refine ⟨PubEvent.data cur :: es, by rw [he, List.cons_append], ?_⟩
        intro e hmem2
        rcases List.mem_cons.mp hmem2 with rfl | h
        · simp
        · exact hmem e h
      · rw [if_neg hne]
        exact ih (tick + 1) last
    | none => dsimp only; exact ih (tick + 1) last

/-- If no snapshot ever appears during the window, no data event is ever
sent: the stream is exactly the single timeout event. -/
theorem pubLoop_none (store : ℕ → Option Snap) :
    ∀ (fuel tick : ℕ) (last : Option Snap),
      (∀ t, tick ≤ t → t < tick + fuel → store t = none) →
      pubLoop store fuel tick last = [PubEvent.timeout] := by
  intro fuel
  induction fuel with
  | zero => intro tick last _; rfl
  | succ n ih =>
    intro tick last h
    unfold pubLoop
    rw [h tick (le_refl tick) (by omega)]
    exact ih (tick + 1) last (fun t h1 h2 => h t (by omega) (by omega))

/-- A snapshot that exists at tick 0 and disappears afterwards. -/
def c5Store : ℕ → Option Snap :=
  fun t => if t = 0
    then some { status := "downloading", message := "Downloading video...",
                percent := some 50 }
    else none

end DL

set_option maxRecDepth 4000 in
/-- C5 counterexample: the claim says that when the Progress Store entry
disappears, the stream closes without a timeout event.  In the code the
poll loop has no break: with an entry that disappears after the first
tick, the stream still runs to the 180 s ceiling and ends with the
terminal timeout event. -/
theorem c5_counterexample :
    DL.c5Store 1 = none ∧
    DL.publisherEvents DL.c5Store =
      [DL.PubEvent.data { status := "downloading",
                          message := "Downloading video...",
                          percent := some 50 },
       DL.PubEvent.timeout] := by
  refine ⟨rfl, by decide⟩

/-- C5 amended: every progress stream terminates only at the 180 s
ceiling and always ends with exactly one terminal timeout event,
regardless of whether (or when) the Progress Store entry disappears —
entry disappearance stops further data events but never closes the
stream early.  The confirmed sub-claim remains: if no snapshot ever
appears, the stream is exactly one timeout event after the ceiling. -/
theorem c5_amended (store : ℕ → Option DL.Snap) :
    (∃ es, DL.publisherEvents store = es ++ [DL.PubEvent.timeout] ∧
      ∀ e ∈ es, e ≠ DL.PubEvent.timeout) ∧
    ((∀ t, t < 600 → store t = none) →
      DL.publisherEvents store = [DL.PubEvent.timeout]) := by
  refine ⟨DL.pubLoop_structure store 600 0 none, fun h => ?_⟩
  exact DL.pubLoop_none store 600 0 none (fun t _ h2 => h t (by omega))

/-- Witness for C5 amended: the empty store yields exactly one timeout
event. -/
theorem c5_amended_witness :
    DL.publisherEvents (fun _ => none) = [DL.PubEvent.timeout] := by
  exact (c5_amended (fun _ => none)).2 (fun t _ => rfl)

namespace DL

/-- A `DownloadTask` row as the Retention Sweeper sees it
(src/models.py): only the columns `cleanup_expired_tasks` reads.
Timestamps are modelled as integers. -/
structure TaskRow where
  session_id : String
  storage_path : Option String := none
  expires_at : Option Int := none
deriving DecidableEq

/-- The sweep predicate `expires_at.isnot(None) ∧ expires_at < now`
(src/services/task_service.py:82): a NULL expiry never matches. -/
def isExpired (now : Int) (t : TaskRow) : Bool :=
  match t.expires_at with
  | some e => e < now
  | none => false

/-- One loop body of `cleanup_expired_tasks` as far as the filesystem is
concerned: `if task.storage_path and os.path.exists(...)`, then a
best-effort `os.remove` whose OSError is caught and logged
(`removeFails p` = the removal raising). -/
def removeFileStep (removeFails : String → Bool) (fs : List String)
    (t : TaskRow) : List String :=
  match t.storage_path with
  | some p =>
    if p ≠ "" ∧ p ∈ fs then
      if removeFails p then fs else fs.filter (· ≠ p)
    else fs
  | none => fs

/-- `cleanup_expired_tasks` (src/services/task_service.py:79-104), the
function `FileCleanupScheduler._cleanup_task_records` runs on each sweep:
select the rows with a non-NULL expiry in the past; for each, best-effort
delete the referenced file, then delete the row (even when the file
removal failed); rows not selected are untouched.  Returns the remaining
rows, the remaining files, and the removed-row count (the freed-bytes
counter is elided). -/
def cleanup_expired_tasks (now : Int) (rows : List TaskRow) (fs : List String)
    (removeFails : String → Bool) : List TaskRow × List String × ℕ :=
  let expired := rows.filter (isExpired now)
  if expired = [] then (rows, fs, 0)
  else
    (rows.filter (fun t => ¬ isExpired now t),
     expired.foldl (removeFileStep removeFails) fs,
     expired.length)

/-- The sweep only ever removes files. -/
theorem removeFileStep_not_mem (removeFails : String → Bool)
    (fs : List String) (t : TaskRow) (q : String) (h : q ∉ fs) :
    q ∉ removeFileStep removeFails fs t := by
  unfold removeFileStep
  split
  · split
    · split
      · exact h
      · exact fun hq => h (List.mem_of_mem_filter hq)
    · exact h
  · exact h

theorem foldl_removeFile_not_mem_preserve (removeFails : String → Bool) :
    ∀ (l : List TaskRow) (fs : List String) (q : String), q ∉ fs →
      q ∉ l.foldl (removeFileStep removeFails) fs := by
  intro l
  induction l with
  | nil => intro fs q h; exact h
  | cons t rest ih =>
    intro fs q h
    exact ih _ q (removeFileStep_not_mem removeFails fs t q h)

/-- A file referenced by some processed row, whose removal does not fail,
is gone afterwards. -/
theorem foldl_removeFile_deletes (removeFails : String → Bool) :
    ∀ (l : List TaskRow) (fs : List String) (p : String),
      (∃ t ∈ l, t.storage_path = some p) → p ≠ "" → removeFails p = false →
      p ∉ l.foldl (removeFileStep removeFails) fs := by
  intro l
  induction l with
  | nil => intro fs p h; simp at h
  | cons t rest ih =>
    intro fs p hex hne hrf
    rcases hex with ⟨u, hu, hsp⟩
    rcases List.mem_cons.mp hu with rfl | hu'
    · rw [List.foldl_cons]
      by_cases hmem : p ∈ fs
      · have hstep : p ∉ removeFileStep removeFails fs u := by
          unfold removeFileStep
          rw [hsp]
          dsimp only
          rw [if_pos ⟨hne, hmem⟩, if_neg (by rw [hrf]; exact Bool.false_ne_true)]
          simp [List.mem_filter]
        exact foldl_removeFile_not_mem_preserve removeFails rest _ p hstep
      · have hstep : p ∉ removeFileStep removeFails fs u :=
          removeFileStep_not_mem removeFails fs u p hmem
        exact foldl_removeFile_not_mem_preserve removeFails rest _ p hstep
    · rw [List.foldl_cons]
      exact ih _ p ⟨u, hu', hsp⟩ hne hrf

/-- A file referenced by none of the processed rows survives the sweep. -/
theorem foldl_removeFile_keeps (removeFails : String → Bool) :
    ∀ (l : List TaskRow) (fs : List String) (p : String),
      (∀ t ∈ l, t.storage_path ≠ some p) → p ∈ fs →
      p ∈ l.foldl (removeFileStep removeFails) fs := by
  intro l
  induction l with
  | nil => intro fs p _ h; exact h
  | cons t rest ih =>
    intro fs p hall h
    rw [List.foldl_cons]
    refine ih _ p (fun u hu => hall u (List.mem_cons_of_mem t hu)) ?_
    unfold removeFileStep
    cases hsp : t.storage_path with
    | some q =>
      dsimp only
      have hq : q ≠ p := fun he => hall t (List.mem_cons_self t rest) (by rw [hsp, he])
      by_cases hcond : q ≠ "" ∧ q ∈ fs
      · rw [if_pos hcond]
        by_cases hrf : removeFails q = true
        · rw [if_pos hrf]
          exact h
        · rw [if_neg hrf]
          refine List.mem_filter.mpr ⟨h, ?_⟩
          simpa using hq.symm
      · rw [if_neg hcond]
        exact h
    | none => dsimp only; exact h

end DL

namespace DL

/-- The full behaviour of one sweep run: expired rows go (their files
best-effort deleted), unexpired rows stay (their files too, unless an
expired row shares the same path). -/
theorem cleanup_expired_spec (now : Int) (rows : List TaskRow)
    (fs : List String) (removeFails : String → Bool) :
    (∀ t ∈ rows, isExpired now t = true →
      t ∉ (cleanup_expired_tasks now rows fs removeFails).1) ∧
    (∀ t ∈ rows, isExpired now t = true → ∀ p, t.storage_path = some p →
      p ≠ "" → removeFails p = false →
      p ∉ (cleanup_expired_tasks now rows fs removeFails).2.1) ∧
    (∀ t ∈ rows, isExpired now t = false →
      t ∈ (cleanup_expired_tasks now rows fs removeFails).1) ∧
    (∀ t ∈ rows, isExpired now t = false → ∀ p, t.storage_path = some p →
      p ∈ fs → (∀ u ∈ rows, isExpired now u = true → u.storage_path ≠ some p) →
      p ∈ (cleanup_expired_tasks now rows fs removeFails).2.1) := by
  unfold cleanup_expired_tasks
  by_cases hemp : rows.filter (isExpired now) = []
  · rw [if_pos hemp]
    refine ⟨?_, ?_, ?_, ?_⟩
    · intro t ht hexp
      have hmem : t ∈ rows.filter (isExpired now) :=
        List.mem_filter.mpr ⟨ht, hexp⟩
      rw [hemp] at hmem
      exact (List.not_mem_nil t hmem).elim
    · intro t ht hexp
      have hmem : t ∈ rows.filter (isExpired now) :=
        List.mem_filter.mpr ⟨ht, hexp⟩
      rw [hemp] at hmem
      exact (List.not_mem_nil t hmem).elim
    · intro t ht _
      exact ht
    · intro t _ _ p _ hp _
      exact hp
  · rw [if_neg hemp]
    refine ⟨?_, ?_, ?_, ?_⟩
    · intro t ht hexp hmem
      have h2 := (List.mem_filter.mp hmem).2
      simp [hexp] at h2
    · intro t ht hexp p hsp hne hrf
      exact foldl_removeFile_deletes removeFails _ fs p
        ⟨t, List.mem_filter.mpr ⟨ht, hexp⟩, hsp⟩ hne hrf
    · intro t ht hexp
      exact List.mem_filter.mpr ⟨ht, by simp [hexp]⟩
    · intro t ht hexp p hsp hpfs hall
      refine foldl_removeFile_keeps removeFails _ fs p ?_ hpfs
      intro u hu
      exact hall u (List.mem_filter.mp hu).1 (List.mem_filter.mp hu).2

/-- Two rows sharing one storage path, one expired and one with a future
expiry. -/
def c9Rows : List TaskRow :=
  [{ session_id := "a9", storage_path := some "/data/p9", expires_at := some 0 },
   { session_id := "b9", storage_path := some "/data/p9", expires_at := some 100 }]

/-- Two rows sharing one storage path, one expired and one with a NULL
expiry. -/
def c10Rows : List TaskRow :=
  [{ session_id := "a10", storage_path := some "/data/p10", expires_at := some 0 },
   { session_id := "n10", storage_path := some "/data/p10", expires_at := none }]

end DL

/-- C9 counterexample: the claim says a record with future expires_at is
left untouched, "as is its file".  When an expired record references the
same storage_path as a future record, the sweep deletes the shared file:
the future record survives but its file is gone. -/
theorem c9_counterexample :
    ({ session_id := "b9", storage_path := some "/data/p9",
       expires_at := some 100 } : DL.TaskRow) ∈
      (DL.cleanup_expired_tasks 50 DL.c9Rows ["/data/p9"] (fun _ => false)).1 ∧
    ("/data/p9" : String) ∉
      (DL.cleanup_expired_tasks 50 DL.c9Rows ["/data/p9"] (fun _ => false)).2.1 := by
  refine ⟨by decide, by decide⟩

/-- C9 amended: on each sweep run every record whose expires_at is in the
past is removed (even when its file removal fails — best-effort, never
raised) and its referenced file, when still present and removable, is
deleted first; every record whose expires_at lies in the future is left
untouched, and so is its file — unless the same path is also referenced
by some expired record, in which case the shared file is deleted. -/
theorem c9_amended (now : Int) (rows : List DL.TaskRow) (fs : List String)
    (removeFails : String → Bool) :
    (∀ t ∈ rows, DL.isExpired now t = true →
      t ∉ (DL.cleanup_expired_tasks now rows fs removeFails).1) ∧
    (∀ t ∈ rows, DL.isExpired now t = true → ∀ p, t.storage_path = some p →
      p ≠ "" → removeFails p = false →
      p ∉ (DL.cleanup_expired_tasks now rows fs removeFails).2.1) ∧
    (∀ t ∈ rows, DL.isExpired now t = false →
      t ∈ (DL.cleanup_expired_tasks now rows fs removeFails).1) ∧
    (∀ t ∈ rows, DL.isExpired now t = false → ∀ p, t.storage_path = some p →
      p ∈ fs → (∀ u ∈ rows, DL.isExpired now u = true → u.storage_path ≠ some p) →
      p ∈ (DL.cleanup_expired_tasks now rows fs removeFails).2.1) :=
  DL.cleanup_expired_spec now rows fs removeFails

/-- Witness for C9 amended: a lone expired record is removed together
with its file. -/
theorem c9_amended_witness :
    ({ session_id := "a9w", storage_path := some "/w9",
       expires_at := some 0 } : DL.TaskRow) ∉
      (DL.cleanup_expired_tasks 50
        [{ session_id := "a9w", storage_path := some "/w9", expires_at := some 0 }]
        ["/w9"] (fun _ => false)).1 ∧
    ("/w9" : String) ∉
      (DL.cleanup_expired_tasks 50
        [{ session_id := "a9w", storage_path := some "/w9", expires_at := some 0 }]
        ["/w9"] (fun _ => false)).2.1 := by
  have H := c9_amended 50
    [{ session_id := "a9w", storage_path := some "/w9", expires_at := some 0 }]
    ["/w9"] (fun _ => false)
  exact ⟨H.1 { session_id := "a9w", storage_path := some "/w9", expires_at := some 0 }
           (by decide) (by decide),
         H.2.1 { session_id := "a9w", storage_path := some "/w9", expires_at := some 0 }
           (by decide) (by decide) "/w9" rfl (by decide) rfl⟩

/-- C10 counterexample: the claim says the sweep leaves NULL-expiry
records AND their referenced files untouched.  The record is indeed never
deleted, but when an expired record shares the same storage_path, the
sweep deletes the file the NULL-expiry record references. -/
theorem c10_counterexample :
    ({ session_id := "n10", storage_path := some "/data/p10",
       expires_at := none } : DL.TaskRow) ∈
      (DL.cleanup_expired_tasks 50 DL.c10Rows ["/data/p10"] (fun _ => false)).1 ∧
    ("/data/p10" : String) ∉
      (DL.cleanup_expired_tasks 50 DL.c10Rows ["/data/p10"] (fun _ => false)).2.1 := by
  refine ⟨by decide, by decide⟩

/-- C10 amended: the sweep's filter requires expires_at to be non-NULL,
so a record whose expires_at is unset is never selected and survives
every run (it is retained forever); its referenced file also survives,
unless the same path is referenced by some expired record, in which case
the shared file is deleted. -/
theorem c10_amended (now : Int) (rows : List DL.TaskRow) (fs : List String)
    (removeFails : String → Bool) :
    ∀ t ∈ rows, t.expires_at = none →
      t ∈ (DL.cleanup_expired_tasks now rows fs removeFails).1 ∧
      ∀ p, t.storage_path = some p → p ∈ fs →
        (∀ u ∈ rows, DL.isExpired now u = true → u.storage_path ≠ some p) →
        p ∈ (DL.cleanup_expired_tasks now rows fs removeFails).2.1 := by
  intro t ht hnone
  have hexp : DL.isExpired now t = false := by
    unfold DL.isExpired
    rw [hnone]
  exact ⟨(DL.cleanup_expired_spec now rows fs removeFails).2.2.1 t ht hexp,
         fun p hsp hp hall =>
           (DL.cleanup_expired_spec now rows fs removeFails).2.2.2 t ht hexp p hsp hp hall⟩

/-- Witness for C10 amended: a NULL-expiry record whose path no expired
record shares survives a run together with its file. -/
theorem c10_amended_witness :
    ({ session_id := "n10w", storage_path := some "/w10",
       expires_at := none } : DL.TaskRow) ∈
      (DL.cleanup_expired_tasks 50
        [{ session_id := "n10w", storage_path := some "/w10", expires_at := none }]
        ["/w10"] (fun _ => false)).1 ∧
    ("/w10" : String) ∈
      (DL.cleanup_expired_tasks 50
        [{ session_id := "n10w", storage_path := some "/w10", expires_at := none }]
        ["/w10"] (fun _ => false)).2.1 := by
  have H := c10_amended 50
    [{ session_id := "n10w", storage_path := some "/w10", expires_at := none }]
    ["/w10"] (fun _ => false)
    { session_id := "n10w", storage_path := some "/w10", expires_at := none }
    (by decide) rfl
  exact ⟨H.1, H.2 "/w10" rfl (by decide) (by decide)⟩
